import Mathlib

/-!
# Formal model of the frappe-mcp-server tool gateway

This file embeds the request-dispatch, tool-group handlers, static hint
loader and schema helpers of the repository in Lean and proves the frozen
claims about them.

JSON values are modelled by the inductive `Json` below; JavaScript numbers
are modelled as integers (no tool in the repository manipulates fractional
numbers), JavaScript `undefined` is modelled by `Option Json` wherever a
value may be undefined (absent object properties, optional RPC parameters),
and a JavaScript exception is an explicit `Except` value.
-/

/-- A JSON value.  Mirrors the values the remote call adapter decodes and
the tool handlers re-serialize.  Object entries keep insertion order, as
JavaScript objects do. -/
inductive Json where
  | null : Json
  | bool (b : Bool) : Json
  | num (n : Int) : Json
  | str (s : String) : Json
  | arr (elems : List Json) : Json
  | obj (entries : List (String × Json)) : Json
  deriving Repr

mutual

def jsonBEq : Json → Json → Bool
  | .null, .null => true
  | .bool a, .bool b => a == b
  | .num a, .num b => a == b
  | .str a, .str b => a == b
  | .arr a, .arr b => jsonBEqL a b
  | .obj a, .obj b => jsonBEqO a b
  | _, _ => false

def jsonBEqL : List Json → List Json → Bool
  | [], [] => true
  | x :: xs, y :: ys => jsonBEq x y && jsonBEqL xs ys
  | _, _ => false

def jsonBEqO : List (String × Json) → List (String × Json) → Bool
  | [], [] => true
  | (ka, va) :: restA, (kb, vb) :: restB =>
      ka == kb && jsonBEq va vb && jsonBEqO restA restB
  | _, _ => false

end

mutual

theorem jsonBEq_iff : ∀ a b, jsonBEq a b = true ↔ a = b
  | .null, b => by cases b <;> simp [jsonBEq]
  | .bool a, b => by cases b <;> simp [jsonBEq]
  | .num a, b => by cases b <;> simp [jsonBEq]
  | .str a, b => by cases b <;> simp [jsonBEq]
  | .arr a, b => by
      cases b <;> simp [jsonBEq]
      exact jsonBEqL_iff a _
  | .obj a, b => by
      cases b <;> simp [jsonBEq]
      exact jsonBEqO_iff a _

theorem jsonBEqL_iff : ∀ a b, jsonBEqL a b = true ↔ a = b
  | [], b => by cases b <;> simp [jsonBEqL]
  | x :: xs, b => by
      cases b <;> simp [jsonBEqL]
      rw [jsonBEq_iff, jsonBEqL_iff]

theorem jsonBEqO_iff : ∀ a b, jsonBEqO a b = true ↔ a = b
  | [], b => by cases b <;> simp [jsonBEqO]
  | (ka, va) :: restA, b => by
      cases b with
      | nil => simp [jsonBEqO]
      | cons y restB =>
          obtain ⟨kb, vb⟩ := y
          simp [jsonBEqO, jsonBEq_iff va vb, jsonBEqO_iff restA restB, and_assoc]

end

instance : DecidableEq Json := fun a b => decidable_of_iff _ (jsonBEq_iff a b)

instance : BEq Json := ⟨fun a b => jsonBEq a b⟩

@[simp] theorem Json.beq_iff_eq (a b : Json) : (a == b) = true ↔ a = b := by
  simpa [BEq.beq] using jsonBEq_iff a b

/-- JavaScript truthiness of a JSON value. -/
def truthy : Json → Bool
  | .null => false
  | .bool b => b
  | .num n => n != 0
  | .str s => !s.isEmpty
  | .arr _ => true
  | .obj _ => true

/-- Truthiness of a possibly-`undefined` value (`undefined` is falsy). -/
def truthyOpt : Option Json → Bool
  | none => false
  | some v => truthy v

/-- `Json.isArray` models JavaScript `Array.isArray`. -/
def Json.isArray : Json → Bool
  | .arr _ => true
  | _ => false

def isArrayOpt : Option Json → Bool
  | none => false
  | some v => v.isArray

/-- A JavaScript exception value: the `message` and `stack` the handlers
read off a caught error. -/
structure JsError where
  message : String
  stack : String
  deriving Repr, DecidableEq

/-- Property lookup on an object value, ignoring the null/undefined check:
used where the receiver is already known non-null. -/
def getPropT (v : Json) (k : String) : Option Json :=
  match v with
  | .obj l => (l.find? (fun p => p.1 == k)).map (·.2)
  | _ => none

/-- JavaScript property access `v[k]`: throws a TypeError when the receiver
is `null` (or `undefined`), yields `undefined` on non-object receivers and
absent keys. -/
def getPropD (v : Json) (k : String) : Except JsError (Option Json) :=
  match v with
  | .null => .error ⟨"Cannot read properties of null (reading " ++ k ++ ")", ""⟩
  | _ => .ok (getPropT v k)

/-- JavaScript `a || b` for a possibly-undefined `a`: the left operand when
it is truthy, otherwise the right. -/
def jsOr (v : Option Json) (d : Json) : Json :=
  match v with
  | some x => if truthy x then x else d
  | none => d

-- quick sanity checks of the JS semantics model
example : truthy (Json.str "") = false := by decide
example : truthy (Json.arr []) = true := by decide
example : getPropD Json.null "success" =
    .error ⟨"Cannot read properties of null (reading success)", ""⟩ := rfl
example : getPropD (Json.num 5) "success" = .ok none := rfl
example : jsOr (some (Json.num 0)) (Json.str "d") = Json.str "d" := by decide

/-! ## Serialization: a model of `JSON.stringify(value, null, 2)`

The handlers embed results with `JSON.stringify(result, null, 2)`: pretty
printing with two-space indentation.  We model it over `List Char` and later
prove that parsing (the model of `JSON.parse`) inverts it. -/

/-- Decimal digit character for `d < 10`. -/
def digitCh (d : Nat) : Char := Char.ofNat (48 + d)

/-- Fuel-driven digit emitter (structural recursion, so that concrete
values compute by kernel reduction). -/
def natToCharsAux : Nat → Nat → List Char
  | 0, _ => []
  | fuel + 1, n =>
      if n < 10 then [digitCh n]
      else natToCharsAux fuel (n / 10) ++ [digitCh (n % 10)]

/-- Decimal representation of a natural number, most significant digit
first, no leading zeros (and `"0"` for zero) — as `JSON.stringify` prints
integral numbers. -/
def natToChars (n : Nat) : List Char := natToCharsAux (n + 1) n

theorem natToCharsAux_fuel : ∀ f₁ f₂ n, n < f₁ → n < f₂ →
    natToCharsAux f₁ n = natToCharsAux f₂ n := by
  intro f₁
  induction f₁ using Nat.strong_induction_on with
  | _ f₁ ih =>
    intro f₂ n h₁ h₂
    match f₁, f₂ with
    | fa + 1, fb + 1 =>
      simp only [natToCharsAux]
      split
      · rfl
      · rename_i hge
        have hlt : n / 10 < n := Nat.div_lt_self (by omega) (by omega)
        rw [ih fa (by omega) fb (n / 10) (by omega) (by omega)]

/-- The defining equation of `natToChars`, free of fuel. -/
theorem natToChars_eq (n : Nat) :
    natToChars n = if n < 10 then [digitCh n]
      else natToChars (n / 10) ++ [digitCh (n % 10)] := by
  unfold natToChars
  conv_lhs => rw [natToCharsAux]
  split
  · rfl
  · rename_i hge
    have hlt : n / 10 < n := Nat.div_lt_self (by omega) (by omega)
    rw [natToCharsAux_fuel n (n / 10 + 1) (n / 10) (by omega) (by omega)]

/-- Decimal representation of an integer. -/
def intChars (n : Int) : List Char :=
  if n < 0 then '-' :: natToChars n.natAbs else natToChars n.natAbs

/-- Lower-case hexadecimal digit for `d < 16`. -/
def hexCh (d : Nat) : Char :=
  if d < 10 then Char.ofNat (48 + d) else Char.ofNat (87 + d)

/-- `JSON.stringify`'s escaping of one string character: quote and
backslash are backslash-escaped, the named control escapes are used for
backspace, tab, newline, form feed and carriage return, all other control
characters become `\u00xx`, everything else is emitted verbatim. -/
def escChar (c : Char) : List Char :=
  if c = '"' then ['\\', '"']
  else if c = '\\' then ['\\', '\\']
  else if c = '\n' then ['\\', 'n']
  else if c = '\t' then ['\\', 't']
  else if c = '\r' then ['\\', 'r']
  else if c.toNat = 8 then ['\\', 'b']
  else if c.toNat = 12 then ['\\', 'f']
  else if c.toNat < 32 then ['\\', 'u', '0', '0', hexCh (c.toNat / 16), hexCh (c.toNat % 16)]
  else [c]

def escList : List Char → List Char
  | [] => []
  | c :: cs => escChar c ++ escList cs

/-- A quoted, escaped JSON string literal. -/
def quoteChars (s : String) : List Char := '"' :: (escList s.data ++ ['"'])

/-- The open-brace and close-brace characters (written via code points). -/
def lbrace : Char := Char.ofNat 123
def rbrace : Char := Char.ofNat 125

/-- Two-space indentation at nesting depth `d`. -/
def indChars (d : Nat) : List Char := List.replicate (2 * d) ' '

mutual

/-- `JSON.stringify(v, null, 2)` at nesting depth `d` (the indentation the
caller is already inside of).  Empty arrays and objects print as `[]` and
braces with no line breaks, exactly as in JavaScript. -/
def pretty : Json → Nat → List Char
  | .null, _ => ['n', 'u', 'l', 'l']
  | .bool true, _ => ['t', 'r', 'u', 'e']
  | .bool false, _ => ['f', 'a', 'l', 's', 'e']
  | .num n, _ => intChars n
  | .str s, _ => quoteChars s
  | .arr l, d =>
      if l.isEmpty then ['[', ']']
      else '[' :: '\n' :: (prettyItems l (d + 1) ++ '\n' :: (indChars d ++ [']']))
  | .obj l, d =>
      if l.isEmpty then [lbrace, rbrace]
      else lbrace :: '\n' :: (prettyFields l (d + 1) ++ '\n' :: (indChars d ++ [rbrace]))

/-- Array items, one per line at depth `d`, separated by `",\n"`. -/
def prettyItems : List Json → Nat → List Char
  | [], _ => []
  | x :: xs, d =>
      indChars d ++ pretty x d ++
        (if xs.isEmpty then [] else [',', '\n']) ++ prettyItems xs d

/-- Object entries, one `"key": value` per line at depth `d`. -/
def prettyFields : List (String × Json) → Nat → List Char
  | [], _ => []
  | (k, v) :: xs, d =>
      indChars d ++ quoteChars k ++ ':' :: ' ' :: pretty v d ++
        (if xs.isEmpty then [] else [',', '\n']) ++ prettyFields xs d

end

/-- The string a handler embeds for a result: `JSON.stringify(result, null, 2)`. -/
def prettyStr (v : Json) : String := String.mk (pretty v 0)

example : prettyStr (Json.num (-12)) = "-12" := by decide
example : prettyStr (Json.arr []) = "[]" := by decide
example : prettyStr (Json.arr [Json.num 1, Json.null]) =
    String.mk ['[', '\n', ' ', ' ', '1', ',', '\n', ' ', ' ', 'n', 'u', 'l', 'l', '\n', ']'] := by
  decide

/-! ## Parsing: a model of `JSON.parse` -/

/-- JSON whitespace. -/
def isWsCh (c : Char) : Bool := c = ' ' || c = '\n' || c = '\t' || c = '\r'

/-- Skip leading whitespace. -/
def skipWs : List Char → List Char
  | [] => []
  | c :: cs => if isWsCh c then skipWs cs else c :: cs

/-- Numeric value of the decimal digit list accumulated left to right. -/
def digitsVal (l : List Char) : Nat :=
  l.foldl (fun a c => a * 10 + (c.toNat - 48)) 0

/-- Read a non-empty run of decimal digits. -/
def parseDigits (s : List Char) : Option (Nat × List Char) :=
  let ds := s.takeWhile Char.isDigit
  if ds.isEmpty then none else some (digitsVal ds, s.dropWhile Char.isDigit)

/-- Numeric value of a hexadecimal digit character. -/
def hexVal (c : Char) : Option Nat :=
  if '0' ≤ c ∧ c ≤ '9' then some (c.toNat - 48)
  else if 'a' ≤ c ∧ c ≤ 'f' then some (c.toNat - 87)
  else if 'A' ≤ c ∧ c ≤ 'F' then some (c.toNat - 55)
  else none

/-- The single-character escapes accepted after a backslash. -/
def escMap (e : Char) : Option Char :=
  if e = '"' then some '"'
  else if e = '\\' then some '\\'
  else if e = '/' then some '/'
  else if e = 'n' then some '\n'
  else if e = 't' then some '\t'
  else if e = 'r' then some '\r'
  else if e = 'b' then some (Char.ofNat 8)
  else if e = 'f' then some (Char.ofNat 12)
  else none

/-- Body of a string literal after the opening quote: collected characters
plus the rest of the input after the closing quote. -/
def parseStrBody : List Char → Option (List Char × List Char)
  | [] => none
  | c :: rest =>
      if c = '"' then some ([], rest)
      else if c = '\\' then
        match rest with
        | [] => none
        | e :: rest₂ =>
            if e = 'u' then
              match rest₂ with
              | h₁ :: h₂ :: h₃ :: h₄ :: rest₃ =>
                  match hexVal h₁, hexVal h₂, hexVal h₃, hexVal h₄ with
                  | some a, some b, some hc, some hd =>
                      (parseStrBody rest₃).map fun p =>
                        (Char.ofNat (((a * 16 + b) * 16 + hc) * 16 + hd) :: p.1, p.2)
                  | _, _, _, _ => none
              | _ => none
            else
              match escMap e with
              | some d => (parseStrBody rest₂).map fun p => (d :: p.1, p.2)
              | none => none
      else (parseStrBody rest).map fun p => (c :: p.1, p.2)

/-- Expect the literal characters `pat` at the head of the input, returning
the rest. -/
def expectLit : List Char → List Char → Option (List Char)
  | [], s => some s
  | p :: ps, c :: cs => if c = p then expectLit ps cs else none
  | _ :: _, [] => none

mutual

/-- Parse one JSON value; `fuel` bounds the nesting the parser will enter. -/
def parseVal : Nat → List Char → Option (Json × List Char)
  | 0, _ => none
  | fuel + 1, s =>
      match skipWs s with
      | [] => none
      | c :: cs =>
          if c = 'n' then (expectLit ['u', 'l', 'l'] cs).map fun r => (Json.null, r)
          else if c = 't' then (expectLit ['r', 'u', 'e'] cs).map fun r => (Json.bool true, r)
          else if c = 'f' then (expectLit ['a', 'l', 's', 'e'] cs).map fun r => (Json.bool false, r)
          else if c = '"' then (parseStrBody cs).map fun p => (Json.str (String.mk p.1), p.2)
          else if c = '-' then (parseDigits cs).map fun p => (Json.num (-(p.1 : Int)), p.2)
          else if c.isDigit then (parseDigits (c :: cs)).map fun p => (Json.num (p.1 : Int), p.2)
          else if c = '[' then
            match skipWs cs with
            | [] => none
            | d :: r =>
                if d = ']' then some (Json.arr [], r)
                else (parseItems fuel cs).map fun p => (Json.arr p.1, p.2)
          else if c = lbrace then
            match skipWs cs with
            | [] => none
            | d :: r =>
                if d = rbrace then some (Json.obj [], r)
                else (parseFields fuel cs).map fun p => (Json.obj p.1, p.2)
          else none

/-- Parse the non-empty comma-separated items of an array, up to and
including the closing bracket. -/
def parseItems : Nat → List Char → Option (List Json × List Char)
  | 0, _ => none
  | fuel + 1, s =>
      match parseVal fuel s with
      | none => none
      | some (v, r) =>
          match skipWs r with
          | [] => none
          | c :: r₂ =>
              if c = ',' then
                match parseItems fuel r₂ with
                | some (vs, r₃) => some (v :: vs, r₃)
                | none => none
              else if c = ']' then some ([v], r₂)
              else none

/-- Parse the non-empty comma-separated entries of an object, up to and
including the closing brace. -/
def parseFields : Nat → List Char → Option (List (String × Json) × List Char)
  | 0, _ => none
  | fuel + 1, s =>
      match skipWs s with
      | [] => none
      | c :: cs =>
          if c = '"' then
            match parseStrBody cs with
            | none => none
            | some (k, r) =>
                match skipWs r with
                | [] => none
                | c₂ :: r₂ =>
                    if c₂ = ':' then
                      match parseVal fuel r₂ with
                      | none => none
                      | some (v, r₃) =>
                          match skipWs r₃ with
                          | [] => none
                          | c₃ :: r₄ =>
                              if c₃ = ',' then
                                match parseFields fuel r₄ with
                                | some (fs, r₅) => some ((String.mk k, v) :: fs, r₅)
                                | none => none
                              else if c₃ = rbrace then some ([(String.mk k, v)], r₄)
                              else none
                    else none
          else none

end

/-- `JSON.parse`: the whole input must be one JSON value, up to trailing
whitespace.  The fuel `s.length + 1` always suffices (proved below for
serializer output). -/
def jsonParse (s : String) : Option Json :=
  match parseVal (s.data.length + 1) s.data with
  | some (v, r) => if (skipWs r).isEmpty then some v else none
  | none => none

example : jsonParse "null" = some Json.null := by decide
example : jsonParse "  [ ]  " = some (Json.arr []) := by decide
example : jsonParse "[1, -20]" = some (Json.arr [Json.num 1, Json.num (-20)]) := by decide
example : jsonParse "tru" = none := by decide
example : jsonParse (String.mk ['"', 'a', '\\', 'n', 'b', '"']) =
    some (Json.str (String.mk ['a', '\n', 'b'])) := by decide

/-! ## Round trip: parsing inverts serialization -/

/-- A whitespace-only character run. -/
def allWs (l : List Char) : Bool := l.all isWsCh

/-- The input does not begin with a decimal digit (so a maximal digit run
just before it is not extended). -/
def noDigitHead : List Char → Bool
  | [] => true
  | c :: _ => !c.isDigit

theorem skipWs_append (w s : List Char) (hw : allWs w = true) :
    skipWs (w ++ s) = skipWs s := by
  induction w with
  | nil => rfl
  | cons c cs ih =>
      simp only [allWs, List.all_cons, Bool.and_eq_true] at hw
      simp [skipWs, hw.1, ih hw.2]

theorem skipWs_not_ws (c : Char) (s : List Char) (h : isWsCh c = false) :
    skipWs (c :: s) = c :: s := by
  simp [skipWs, h]

theorem allWs_indChars (d : Nat) : allWs (indChars d) = true := by
  simp [allWs, indChars, isWsCh]

theorem allWs_append_iff (a b : List Char) :
    allWs (a ++ b) = (allWs a && allWs b) := by
  simp [allWs]

theorem parseVal_ws (f : Nat) (w s : List Char) (hw : allWs w = true) :
    parseVal f (w ++ s) = parseVal f s := by
  cases f with
  | zero => rfl
  | succ f => simp only [parseVal, skipWs_append w s hw]

theorem digitCh_isDigit (d : Nat) (h : d < 10) : (digitCh d).isDigit = true := by
  interval_cases d <;> decide

theorem digitCh_val (d : Nat) (h : d < 10) : (digitCh d).toNat - 48 = d := by
  interval_cases d <;> decide

theorem natToChars_digits (n : Nat) :
    natToChars n ≠ [] ∧ ∀ c ∈ natToChars n, c.isDigit = true := by
  induction n using Nat.strong_induction_on with
  | _ n ih =>
    rw [natToChars_eq]
    split
    · rename_i h
      exact ⟨by simp, by simp [digitCh_isDigit n h]⟩
    · rename_i h
      have hlt : n / 10 < n := Nat.div_lt_self (by omega) (by omega)
      obtain ⟨h₁, h₂⟩ := ih (n / 10) hlt
      refine ⟨by simp [h₁], ?_⟩
      intro c hc
      rcases List.mem_append.mp hc with hc | hc
      · exact h₂ c hc
      · simp at hc
        subst hc
        exact digitCh_isDigit _ (Nat.mod_lt _ (by omega))

theorem digitsVal_append_one (l : List Char) (c : Char) :
    digitsVal (l ++ [c]) = 10 * digitsVal l + (c.toNat - 48) := by
  simp [digitsVal, List.foldl_append]
  omega

theorem digitsVal_natToChars (n : Nat) : digitsVal (natToChars n) = n := by
  induction n using Nat.strong_induction_on with
  | _ n ih =>
    rw [natToChars_eq]
    split
    · rename_i h
      simp [digitsVal, digitCh_val n h]
    · rename_i h
      have hlt : n / 10 < n := Nat.div_lt_self (by omega) (by omega)
      rw [digitsVal_append_one, ih (n / 10) hlt, digitCh_val _ (Nat.mod_lt _ (by omega))]
      omega

theorem takeWhile_digits_append (a b : List Char)
    (ha : ∀ c ∈ a, c.isDigit = true) (hb : noDigitHead b = true) :
    (a ++ b).takeWhile Char.isDigit = a ∧ (a ++ b).dropWhile Char.isDigit = b := by
  induction a with
  | nil =>
      cases b with
      | nil => exact ⟨rfl, rfl⟩
      | cons c cs =>
          simp [noDigitHead] at hb
          simp [List.takeWhile, List.dropWhile, hb]
  | cons c cs ih =>
      have hc : c.isDigit = true := ha c (by simp)
      have hrest : ∀ x ∈ cs, x.isDigit = true := fun x hx => ha x (by simp [hx])
      obtain ⟨h₁, h₂⟩ := ih hrest
      simp [List.takeWhile, List.dropWhile, hc, h₁, h₂]

theorem parseDigits_natToChars (n : Nat) (rest : List Char)
    (hrest : noDigitHead rest = true) :
    parseDigits (natToChars n ++ rest) = some (n, rest) := by
  obtain ⟨hne, hdig⟩ := natToChars_digits n
  obtain ⟨h₁, h₂⟩ := takeWhile_digits_append (natToChars n) rest hdig hrest
  simp [parseDigits, h₁, h₂, hne, digitsVal_natToChars]

theorem charOfNat_toNat_small (c : Char) (h : c.toNat < 32) :
    Char.ofNat c.toNat = c := by
  have hv : c.toNat.isValidChar := Or.inl (by omega)
  rw [Char.ofNat]
  simp [hv]
  apply Char.eq_of_val_eq
  apply UInt32.eq_of_toBitVec_eq
  simp [Char.ofNatAux, Char.toNat]
  apply BitVec.eq_of_toNat_eq
  simp [UInt32.toNat]

theorem hexVal_hexCh (d : Nat) (h : d < 16) : hexVal (hexCh d) = some d := by
  interval_cases d <;> decide

theorem parseStrBody_quote (rest : List Char) :
    parseStrBody ('"' :: rest) = some ([], rest) := by
  rw [parseStrBody.eq_def]; simp

theorem parseStrBody_esc1 (e : Char) (rest : List Char) (he : ¬e = 'u') :
    parseStrBody ('\\' :: e :: rest) =
      match escMap e with
      | some d => (parseStrBody rest).map fun p => (d :: p.1, p.2)
      | none => none := by
  rw [parseStrBody.eq_def]; simp [he]

theorem parseStrBody_escU (h₁ h₂ h₃ h₄ : Char) (rest : List Char) :
    parseStrBody ('\\' :: 'u' :: h₁ :: h₂ :: h₃ :: h₄ :: rest) =
      match hexVal h₁, hexVal h₂, hexVal h₃, hexVal h₄ with
      | some a, some b, some hc, some hd =>
          (parseStrBody rest).map fun p =>
            (Char.ofNat (((a * 16 + b) * 16 + hc) * 16 + hd) :: p.1, p.2)
      | _, _, _, _ => none := by
  rw [parseStrBody.eq_def]; simp

theorem parseStrBody_plain (c : Char) (rest : List Char)
    (h₁ : ¬c = '"') (h₂ : ¬c = '\\') :
    parseStrBody (c :: rest) = (parseStrBody rest).map fun p => (c :: p.1, p.2) := by
  rw [parseStrBody.eq_def]; simp [h₁, h₂]

theorem parseStrBody_escList : ∀ (cs rest : List Char),
    parseStrBody (escList cs ++ '"' :: rest) = some (cs, rest) := by
  intro cs
  induction cs with
  | nil => intro rest; simpa [escList] using parseStrBody_quote rest
  | cons c cs ih =>
      intro rest
      simp only [escList, List.append_assoc]
      by_cases h₁ : c = '"'
      · subst h₁
        rw [show escChar '"' = ['\\', '"'] from by decide]
        simp only [List.cons_append, List.nil_append]
        rw [parseStrBody_esc1 _ _ (by decide)]
        simp [escMap, ih]
      · by_cases h₂ : c = '\\'
        · subst h₂
          rw [show escChar '\\' = ['\\', '\\'] from by decide]
          simp only [List.cons_append, List.nil_append]
          rw [parseStrBody_esc1 _ _ (by decide)]
          simp [escMap, ih]
        · by_cases h₃ : c = '\n'
          · subst h₃
            rw [show escChar '\n' = ['\\', 'n'] from by decide]
            simp only [List.cons_append, List.nil_append]
            rw [parseStrBody_esc1 _ _ (by decide)]
            simp [escMap, ih]
          · by_cases h₄ : c = '\t'
            · subst h₄
              rw [show escChar '\t' = ['\\', 't'] from by decide]
              simp only [List.cons_append, List.nil_append]
              rw [parseStrBody_esc1 _ _ (by decide)]
              simp [escMap, ih]
            · by_cases h₅ : c = '\r'
              · subst h₅
                rw [show escChar '\r' = ['\\', 'r'] from by decide]
                simp only [List.cons_append, List.nil_append]
                rw [parseStrBody_esc1 _ _ (by decide)]
                simp [escMap, ih]
              · by_cases h₆ : c.toNat = 8
                · have hc : Char.ofNat 8 = c := by
                    rw [← h₆]; exact charOfNat_toNat_small c (by omega)
                  have hesc : escChar c = ['\\', 'b'] := by
                    simp only [escChar]
                    rw [if_neg h₁, if_neg h₂, if_neg h₃, if_neg h₄, if_neg h₅, if_pos h₆]
                  rw [hesc]
                  simp only [List.cons_append, List.nil_append]
                  rw [parseStrBody_esc1 _ _ (by decide)]
                  simp [escMap, ih]
                  exact hc
                · by_cases h₇ : c.toNat = 12
                  · have hc : Char.ofNat 12 = c := by
                      rw [← h₇]; exact charOfNat_toNat_small c (by omega)
                    have hesc : escChar c = ['\\', 'f'] := by
                      simp only [escChar]
                      rw [if_neg h₁, if_neg h₂, if_neg h₃, if_neg h₄, if_neg h₅,
                        if_neg h₆, if_pos h₇]
                    rw [hesc]
                    simp only [List.cons_append, List.nil_append]
                    rw [parseStrBody_esc1 _ _ (by decide)]
                    simp [escMap, ih]
                    exact hc
                  · by_cases h₈ : c.toNat < 32
                    · have hdiv : c.toNat / 16 < 16 := by omega
                      have hmod : c.toNat % 16 < 16 := by omega
                      have hesc : escChar c =
                          ['\\', 'u', '0', '0', hexCh (c.toNat / 16), hexCh (c.toNat % 16)] := by
                        simp only [escChar]
                        rw [if_neg h₁, if_neg h₂, if_neg h₃, if_neg h₄, if_neg h₅,
                          if_neg h₆, if_neg h₇, if_pos h₈]
                      rw [hesc]
                      simp only [List.cons_append, List.nil_append]
                      rw [parseStrBody_escU]
                      rw [show hexVal '0' = some 0 from by decide,
                        hexVal_hexCh _ hdiv, hexVal_hexCh _ hmod]
                      have hval : ((((0 : Nat) * 16 + 0) * 16 + c.toNat / 16) * 16
                          + c.toNat % 16) = c.toNat := by omega
                      simp [hval, ih]
                      rw [show c.toNat / 16 * 16 + c.toNat % 16 = c.toNat from by omega]
                      exact charOfNat_toNat_small c h₈
                    · have hesc : escChar c = [c] := by
                        simp only [escChar]
                        rw [if_neg h₁, if_neg h₂, if_neg h₃, if_neg h₄, if_neg h₅,
                          if_neg h₆, if_neg h₇, if_neg h₈]
                      rw [hesc]
                      simp only [List.cons_append, List.nil_append]
                      rw [parseStrBody_plain c _ h₁ h₂]
                      simp [ih]

mutual

/-- Structural size of a JSON value: the fuel the parser needs for it. -/
def jsize : Json → Nat
  | .null => 1
  | .bool _ => 1
  | .num _ => 1
  | .str _ => 1
  | .arr l => 1 + jsizeL l
  | .obj l => 1 + jsizeO l

def jsizeL : List Json → Nat
  | [] => 0
  | x :: xs => 1 + jsize x + jsizeL xs

def jsizeO : List (String × Json) → Nat
  | [] => 0
  | p :: xs => 1 + jsize p.2 + jsizeO xs

end

theorem jsize_pos (v : Json) : 1 ≤ jsize v := by
  cases v <;> simp [jsize]

theorem ws_not_digit (c : Char) (h : isWsCh c = true) : c.isDigit = false := by
  simp only [isWsCh, Bool.or_eq_true, decide_eq_true_eq] at h
  rcases h with ((h | h) | h) | h <;> subst h <;> decide

theorem digit_ne (c x : Char) (hc : c.isDigit = true) (hx : x.isDigit = false) :
    ¬c = x := by
  intro h
  subst h
  rw [hc] at hx
  cases hx

theorem digit_not_ws (c : Char) (h : c.isDigit = true) : isWsCh c = false := by
  cases hb : isWsCh c
  · rfl
  · rw [ws_not_digit c hb] at h
    cases h

theorem natToChars_head (n : Nat) :
    ∃ c t, natToChars n = c :: t ∧ c.isDigit = true := by
  obtain ⟨hne, hdig⟩ := natToChars_digits n
  cases h : natToChars n with
  | nil => exact absurd h hne
  | cons c t => exact ⟨c, t, rfl, hdig c (by rw [h]; simp)⟩

/-- The serialization of any value starts with a non-whitespace character
that is not a closing bracket, closing brace, comma or colon. -/
theorem pretty_head (v : Json) (d : Nat) :
    ∃ c t, pretty v d = c :: t ∧ isWsCh c = false ∧ ¬c = ']' ∧ ¬c = rbrace := by
  cases v with
  | null => exact ⟨'n', ['u', 'l', 'l'], by simp [pretty], by decide, by decide, by decide⟩
  | bool b =>
      cases b
      · exact ⟨'f', ['a', 'l', 's', 'e'], by simp [pretty], by decide, by decide, by decide⟩
      · exact ⟨'t', ['r', 'u', 'e'], by simp [pretty], by decide, by decide, by decide⟩
  | num n =>
      by_cases hn : n < 0
      · exact ⟨'-', natToChars n.natAbs, by simp [pretty, intChars, hn],
          by decide, by decide, by decide⟩
      · obtain ⟨c, t, hct, hdig⟩ := natToChars_head n.natAbs
        refine ⟨c, t, by simp [pretty, intChars, hn, hct], digit_not_ws c hdig,
          digit_ne c _ hdig (by decide), digit_ne c _ hdig (by decide)⟩
  | str s =>
      exact ⟨'"', escList s.data ++ ['"'], by simp [pretty, quoteChars],
        by decide, by decide, by decide⟩
  | arr l =>
      by_cases hl : l.isEmpty
      · exact ⟨'[', [']'], by simp [pretty, hl], by decide, by decide, by decide⟩
      · exact ⟨'[', '\n' :: (prettyItems l (d + 1) ++ '\n' :: (indChars d ++ [']'])),
          by simp [pretty, hl], by decide, by decide, by decide⟩
  | obj l =>
      by_cases hl : l.isEmpty
      · exact ⟨lbrace, [rbrace], by simp [pretty, hl], by decide, by decide, by decide⟩
      · exact ⟨lbrace, '\n' :: (prettyFields l (d + 1) ++ '\n' :: (indChars d ++ [rbrace])),
          by simp [pretty, hl], by decide, by decide, by decide⟩

theorem noDigitHead_ws_close (w rest : List Char) (cl : Char)
    (hw : allWs w = true) (hcl : cl.isDigit = false) :
    noDigitHead (w ++ cl :: rest) = true := by
  cases w with
  | nil => simp [noDigitHead, hcl]
  | cons c cs =>
      simp only [allWs, List.all_cons, Bool.and_eq_true] at hw
      simp [noDigitHead, ws_not_digit c hw.1]

theorem stringMk_data (s : String) : String.mk s.data = s := by
  cases s
  rfl

theorem skipWs_cons_ws (c : Char) (s : List Char) (h : isWsCh c = true) :
    skipWs (c :: s) = skipWs s := by
  simp [skipWs, h]

/-- Round-trip statement for values at a given fuel. -/
def RTvalP (f : Nat) : Prop :=
  ∀ v d rest, jsize v ≤ f → noDigitHead rest = true →
    parseVal f (pretty v d ++ rest) = some (v, rest)

/-- Round-trip statement for non-empty array item lists at a given fuel. -/
def RTitemsP (f : Nat) : Prop :=
  ∀ l d rest w₁ w₂, l ≠ [] → jsizeL l ≤ f → allWs w₁ = true → allWs w₂ = true →
    parseItems f (w₁ ++ (prettyItems l d ++ (w₂ ++ ']' :: rest))) = some (l, rest)

/-- Round-trip statement for non-empty object entry lists at a given fuel. -/
def RTfieldsP (f : Nat) : Prop :=
  ∀ l d rest w₁ w₂, l ≠ [] → jsizeO l ≤ f → allWs w₁ = true → allWs w₂ = true →
    parseFields f (w₁ ++ (prettyFields l d ++ (w₂ ++ rbrace :: rest))) = some (l, rest)

theorem rtVal_succ (f : Nat) (ihI : RTitemsP f) (ihF : RTfieldsP f) :
    RTvalP (f + 1) := by
  intro v d rest hsize hnd
  cases v with
  | null =>
      rw [parseVal.eq_def]
      simp only [pretty, List.cons_append]
      rw [skipWs_not_ws _ _ (by decide)]
      simp [expectLit]
  | bool b =>
      cases b <;>
        (rw [parseVal.eq_def]
         simp only [pretty, List.cons_append]
         rw [skipWs_not_ws _ _ (by decide)]
         simp [expectLit,
           show (('t' : Char) = 'n') = False from by decide,
           show (('f' : Char) = 'n') = False from by decide,
           show (('f' : Char) = 't') = False from by decide])
  | num n =>
      rw [parseVal.eq_def]
      by_cases hn : n < 0
      · simp only [pretty, intChars, if_pos hn, List.cons_append]
        rw [skipWs_not_ws _ _ (by decide)]
        simp [show (('-' : Char) = 'n') = False from by decide,
          show (('-' : Char) = 't') = False from by decide,
          show (('-' : Char) = 'f') = False from by decide,
          show (('-' : Char) = '"') = False from by decide,
          parseDigits_natToChars _ _ hnd]
        simp [abs_of_neg hn]
      · obtain ⟨c, t, hct, hdig⟩ := natToChars_head n.natAbs
        simp only [pretty, intChars, if_neg hn, hct, List.cons_append]
        rw [skipWs_not_ws _ _ (digit_not_ws c hdig)]
        simp only [eq_false (digit_ne c 'n' hdig (by decide)),
          eq_false (digit_ne c 't' hdig (by decide)),
          eq_false (digit_ne c 'f' hdig (by decide)),
          eq_false (digit_ne c '"' hdig (by decide)),
          eq_false (digit_ne c '-' hdig (by decide)),
          hdig, if_false, if_true, ite_false, ite_true]
        rw [show c :: (t ++ rest) = natToChars n.natAbs ++ rest by rw [hct]; rfl]
        rw [parseDigits_natToChars _ _ hnd]
        have h' : ((n.natAbs : Nat) : Int) = n := Int.natAbs_of_nonneg (not_lt.mp hn)
        simp [h']
  | str s =>
      rw [parseVal.eq_def]
      simp only [pretty, quoteChars, List.cons_append]
      rw [skipWs_not_ws _ _ (by decide)]
      rw [show (escList s.data ++ ['"']) ++ rest = escList s.data ++ '"' :: rest by
        rw [List.append_assoc]; rfl]
      simp [show (('"' : Char) = 'n') = False from by decide,
        show (('"' : Char) = 't') = False from by decide,
        show (('"' : Char) = 'f') = False from by decide,
        parseStrBody_escList, stringMk_data]
  | arr l =>
      by_cases hl : l.isEmpty
      · have hnil : l = [] := by simpa using hl
        subst hnil
        rw [show pretty (Json.arr []) d = ['[', ']'] from rfl]
        rw [parseVal.eq_def]
        simp only [List.cons_append, List.nil_append]
        rw [skipWs_not_ws _ _ (by decide)]
        simp [show skipWs (']' :: rest) = ']' :: rest from skipWs_not_ws _ _ (by decide),
          show (('[' : Char) = 'n') = False from by decide,
          show (('[' : Char) = 't') = False from by decide,
          show (('[' : Char) = 'f') = False from by decide,
          show (('[' : Char) = '"') = False from by decide,
          show (('[' : Char) = '-') = False from by decide,
          show (('[' : Char).isDigit = false) from by decide]
      · have hne : l ≠ [] := by simpa using hl
        have hfuel : jsizeL l ≤ f := by
          simp only [jsize] at hsize
          omega
        rw [parseVal.eq_def]
        simp only [pretty, if_neg hl, List.cons_append]
        rw [skipWs_not_ws _ _ (by decide)]
        obtain ⟨x, xs, rfl⟩ : ∃ x xs, l = x :: xs := by
          cases l with
          | nil => exact absurd rfl hne
          | cons x xs => exact ⟨x, xs, rfl⟩
        obtain ⟨c₀, t₀, hct, hws, hrb, _⟩ := pretty_head x (d + 1)
        have hskip : skipWs ('\n' :: ((prettyItems (x :: xs) (d + 1) ++
            '\n' :: (indChars d ++ [']'])) ++ rest)) =
            c₀ :: (t₀ ++ ((if xs.isEmpty then [] else [',', '\n']) ++
              (prettyItems xs (d + 1) ++ ('\n' :: (indChars d ++ ([']'] ++ rest)))))) := by
          rw [skipWs_cons_ws _ _ (by decide)]
          simp only [prettyItems, List.append_assoc, List.cons_append, List.nil_append]
          rw [skipWs_append _ _ (allWs_indChars (d + 1))]
          rw [hct]
          simp only [List.cons_append, List.append_assoc]
          rw [skipWs_not_ws _ _ hws]
        simp only [List.append_assoc, List.cons_append, List.nil_append] at hskip
        have hitems := ihI (x :: xs) (d + 1) rest ['\n'] ('\n' :: indChars d) hne hfuel
          (by decide) (by simp [allWs, indChars, isWsCh])
        simp only [List.append_assoc, List.cons_append, List.nil_append] at hitems
        simp [hskip, eq_false hrb,
          show (('[' : Char) = 'n') = False from by decide,
          show (('[' : Char) = 't') = False from by decide,
          show (('[' : Char) = 'f') = False from by decide,
          show (('[' : Char) = '"') = False from by decide,
          show (('[' : Char) = '-') = False from by decide,
          show (('[' : Char).isDigit = false) from by decide,
          hitems]
  | obj l =>
      by_cases hl : l.isEmpty
      · have hnil : l = [] := by simpa using hl
        subst hnil
        rw [show pretty (Json.obj []) d = [lbrace, rbrace] from rfl]
        rw [parseVal.eq_def]
        simp only [List.cons_append, List.nil_append]
        rw [skipWs_not_ws _ _ (by decide)]
        simp [show skipWs (rbrace :: rest) = rbrace :: rest from skipWs_not_ws _ _ (by decide),
          show (lbrace = 'n') = False from by decide,
          show (lbrace = 't') = False from by decide,
          show (lbrace = 'f') = False from by decide,
          show (lbrace = '"') = False from by decide,
          show (lbrace = '-') = False from by decide,
          show (lbrace.isDigit = false) from by decide,
          show (lbrace = '[') = False from by decide]
      · have hne : l ≠ [] := by simpa using hl
        have hfuel : jsizeO l ≤ f := by
          simp only [jsize] at hsize
          omega
        rw [parseVal.eq_def]
        simp only [pretty, if_neg hl, List.cons_append]
        rw [skipWs_not_ws _ _ (by decide)]
        obtain ⟨p, xs, rfl⟩ : ∃ p xs, l = p :: xs := by
          cases l with
          | nil => exact absurd rfl hne
          | cons p xs => exact ⟨p, xs, rfl⟩
        have hskip : skipWs ('\n' :: ((prettyFields (p :: xs) (d + 1) ++
            '\n' :: (indChars d ++ [rbrace])) ++ rest)) =
            '"' :: ((escList p.1.data ++ ['"']) ++ (':' :: ' ' :: (pretty p.2 (d + 1) ++
              ((if xs.isEmpty then [] else [',', '\n']) ++
                (prettyFields xs (d + 1) ++ ('\n' :: (indChars d ++ ([rbrace] ++ rest)))))))) := by
          rw [skipWs_cons_ws _ _ (by decide)]
          simp only [prettyFields, quoteChars, List.append_assoc, List.cons_append,
            List.nil_append]
          rw [skipWs_append _ _ (allWs_indChars (d + 1))]
          rw [skipWs_not_ws _ _ (by decide)]
        simp only [List.append_assoc, List.cons_append, List.nil_append] at hskip
        have hfields := ihF (p :: xs) (d + 1) rest ['\n'] ('\n' :: indChars d) hne hfuel
          (by decide) (by simp [allWs, indChars, isWsCh])
        simp only [List.append_assoc, List.cons_append, List.nil_append] at hfields
        simp [hskip,
          show (lbrace = 'n') = False from by decide,
          show (lbrace = 't') = False from by decide,
          show (lbrace = 'f') = False from by decide,
          show (lbrace = '"') = False from by decide,
          show (lbrace = '-') = False from by decide,
          show (lbrace.isDigit = false) from by decide,
          show (lbrace = '[') = False from by decide,
          show (('"' : Char) = rbrace) = False from by decide,
          hfields]

theorem rtItems_succ (f : Nat) (ihV : RTvalP f) (ihI : RTitemsP f) :
    RTitemsP (f + 1) := by
  intro l d rest w₁ w₂ hne hsize hw₁ hw₂
  obtain ⟨x, xs, rfl⟩ : ∃ x xs, l = x :: xs := by
    cases l with
    | nil => exact absurd rfl hne
    | cons x xs => exact ⟨x, xs, rfl⟩
  simp only [jsizeL] at hsize
  rw [parseItems.eq_def]
  simp only [prettyItems, List.append_assoc, List.cons_append, List.nil_append]
  cases xs with
  | nil =>
      have hnd : noDigitHead (w₂ ++ ']' :: rest) = true :=
        noDigitHead_ws_close w₂ rest ']' hw₂ (by decide)
      have hv := ihV x d (w₂ ++ ']' :: rest) (by omega) hnd
      rw [parseVal_ws f w₁ _ hw₁, parseVal_ws f (indChars d) _ (allWs_indChars d)]
      simp only [List.isEmpty_nil, if_true, List.nil_append, prettyItems, List.append_nil]
      rw [hv]
      simp [skipWs_append w₂ (']' :: rest) hw₂,
        skipWs_not_ws ']' rest (by decide),
        show ((']' : Char) = ',') = False from by decide]
  | cons y ys =>
      have hv := ihV x d (',' :: '\n' :: (prettyItems (y :: ys) d ++ (w₂ ++ ']' :: rest)))
        (by omega) (by simp [noDigitHead])
      simp only [List.append_assoc, List.cons_append, List.nil_append] at hv
      rw [parseVal_ws f w₁ _ hw₁, parseVal_ws f (indChars d) _ (allWs_indChars d)]
      simp only [List.isEmpty_cons, if_false, List.cons_append, List.nil_append,
        Bool.false_eq_true]
      rw [hv]
      have hrec := ihI (y :: ys) d rest ['\n'] w₂ (by simp) (by omega) (by decide) hw₂
      simp only [List.append_assoc, List.cons_append, List.nil_append] at hrec
      simp [skipWs_not_ws ','
          ('\n' :: (prettyItems (y :: ys) d ++ (w₂ ++ ']' :: rest))) (by decide),
        hrec]

theorem parseVal_ws_cons (f : Nat) (c : Char) (s : List Char) (h : isWsCh c = true) :
    parseVal f (c :: s) = parseVal f s := by
  have := parseVal_ws f [c] s (by simp [allWs, h])
  simpa using this

theorem rtFields_succ (f : Nat) (ihV : RTvalP f) (ihF : RTfieldsP f) :
    RTfieldsP (f + 1) := by
  intro l d rest w₁ w₂ hne hsize hw₁ hw₂
  obtain ⟨k, v, xs, rfl⟩ : ∃ k v xs, l = (k, v) :: xs := by
    cases l with
    | nil => exact absurd rfl hne
    | cons p xs => exact ⟨p.1, p.2, xs, by simp⟩
  simp only [jsizeO] at hsize
  rw [parseFields.eq_def]
  simp only [prettyFields, quoteChars, List.append_assoc, List.cons_append, List.nil_append]
  rw [skipWs_append w₁ _ hw₁, skipWs_append (indChars d) _ (allWs_indChars d)]
  rw [skipWs_not_ws '"' _ (by decide)]
  cases xs with
  | nil =>
      have hstr := parseStrBody_escList k.data
        (':' :: ' ' :: (pretty v d ++ (w₂ ++ rbrace :: rest)))
      have hnd : noDigitHead (w₂ ++ rbrace :: rest) = true :=
        noDigitHead_ws_close w₂ rest rbrace hw₂ (by decide)
      have hv := ihV v d (w₂ ++ rbrace :: rest) (by omega) hnd
      simp only [List.isEmpty_nil, if_true, List.nil_append, prettyFields, List.append_nil,
        List.append_assoc, List.cons_append] at hstr hv ⊢
      rw [hstr]
      simp only [skipWs_not_ws ':' _ (by decide)]
      simp [parseVal_ws_cons f ' ' _ (by decide), hv,
        skipWs_append w₂ (rbrace :: rest) hw₂,
        skipWs_not_ws rbrace rest (by decide),
        show (rbrace = ',') = False from by decide,
        stringMk_data]
  | cons q qs =>
      have hstr := parseStrBody_escList k.data
        (':' :: ' ' :: (pretty v d ++ (',' :: '\n' ::
          (prettyFields (q :: qs) d ++ (w₂ ++ rbrace :: rest)))))
      have hv := ihV v d (',' :: '\n' ::
          (prettyFields (q :: qs) d ++ (w₂ ++ rbrace :: rest)))
        (by omega) (by simp [noDigitHead])
      simp only [List.isEmpty_cons, if_false, List.cons_append, List.nil_append,
        Bool.false_eq_true, List.append_assoc] at hstr hv ⊢
      rw [hstr]
      simp only [skipWs_not_ws ':' _ (by decide)]
      have hrec := ihF (q :: qs) d rest ['\n'] w₂ (by simp) (by omega) (by decide) hw₂
      simp only [List.append_assoc, List.cons_append, List.nil_append] at hrec
      simp [parseVal_ws_cons f ' ' _ (by decide), hv,
        skipWs_not_ws ','
          ('\n' :: (prettyFields (q :: qs) d ++ (w₂ ++ rbrace :: rest))) (by decide),
        hrec, stringMk_data]

/-- Parsing inverts serialization, at every sufficient fuel. -/
theorem parseRT : ∀ f, RTvalP f ∧ RTitemsP f ∧ RTfieldsP f := by
  intro f
  induction f with
  | zero =>
      refine ⟨?_, ?_, ?_⟩
      · intro v d rest hsize _
        have := jsize_pos v
        omega
      · intro l d rest w₁ w₂ hne hsize _ _
        cases l with
        | nil => exact absurd rfl hne
        | cons x xs => simp [jsizeL] at hsize
      · intro l d rest w₁ w₂ hne hsize _ _
        cases l with
        | nil => exact absurd rfl hne
        | cons p xs => simp [jsizeO] at hsize
  | succ f ih =>
      exact ⟨rtVal_succ f ih.2.1 ih.2.2, rtItems_succ f ih.1 ih.2.1,
        rtFields_succ f ih.1 ih.2.2⟩

/-- The parser fuel `length + 1` used by `jsonParse` dominates `jsize`. -/
theorem prettyLen : ∀ N : Nat,
    (∀ v, jsize v ≤ N → ∀ d, jsize v ≤ (pretty v d).length + 1) ∧
    (∀ l, jsizeL l ≤ N → ∀ d, 1 ≤ d → jsizeL l ≤ (prettyItems l d).length) ∧
    (∀ l, jsizeO l ≤ N → ∀ d, jsizeO l ≤ (prettyFields l d).length) := by
  intro N
  induction N with
  | zero =>
      refine ⟨?_, ?_, ?_⟩
      · intro v h
        have := jsize_pos v
        omega
      · intro l h d _
        cases l with
        | nil => simp [jsizeL]
        | cons x xs => simp [jsizeL] at h
      · intro l h d
        cases l with
        | nil => simp [jsizeO]
        | cons p xs => simp [jsizeO] at h
  | succ N ih =>
      obtain ⟨ihV, ihI, ihO⟩ := ih
      refine ⟨?_, ?_, ?_⟩
      · intro v h d
        cases v with
        | null => simp [jsize]
        | bool b => simp [jsize]
        | num n => simp [jsize]
        | str s => simp [jsize]
        | arr l =>
            by_cases hl : l.isEmpty
            · have : l = [] := by simpa using hl
              subst this
              simp [jsize, jsizeL]
            · simp only [jsize] at h ⊢
              have hi := ihI l (by omega) (d + 1) (by omega)
              simp only [pretty, if_neg hl]
              simp only [List.length_cons, List.length_append, indChars,
                List.length_replicate, List.length_singleton]
              omega
        | obj l =>
            by_cases hl : l.isEmpty
            · have : l = [] := by simpa using hl
              subst this
              simp [jsize, jsizeO]
            · simp only [jsize] at h ⊢
              have hi := ihO l (by omega) (d + 1)
              simp only [pretty, if_neg hl]
              simp only [List.length_cons, List.length_append, indChars,
                List.length_replicate, List.length_singleton]
              omega
      · intro l h d hd
        cases l with
        | nil => simp [jsizeL]
        | cons x xs =>
            simp only [jsizeL] at h ⊢
            have hx := ihV x (by omega) d
            have hxs := ihI xs (by omega) d hd
            simp only [prettyItems, List.length_append, indChars, List.length_replicate]
            by_cases he : xs.isEmpty
            · have : xs = [] := by simpa using he
              subst this
              simp only [jsizeL] at hxs ⊢
              simp [he]
              omega
            · simp [he]
              omega
      · intro l h d
        cases l with
        | nil => simp [jsizeO]
        | cons p xs =>
            obtain ⟨k, v⟩ := p
            simp only [jsizeO] at h ⊢
            have hx := ihV v (by omega) d
            have hxs := ihO xs (by omega) d
            simp only [prettyFields, quoteChars, List.length_append, List.length_cons,
              indChars, List.length_replicate]
            by_cases he : xs.isEmpty
            · have : xs = [] := by simpa using he
              subst this
              simp only [jsizeO] at hxs ⊢
              simp [he]
              omega
            · simp [he]
              omega

/-- `JSON.parse` inverts `JSON.stringify(·, null, 2)`: the round-trip
`parse(format(result)) == result` of the spec. -/
theorem jsonParse_prettyStr (v : Json) : jsonParse (prettyStr v) = some v := by
  have hfuel : jsize v ≤ (pretty v 0).length + 1 := (prettyLen (jsize v)).1 v le_rfl 0
  have h := (parseRT ((pretty v 0).length + 1)).1 v 0 [] hfuel (by decide)
  simp only [List.append_nil] at h
  unfold jsonParse prettyStr
  simp [h, skipWs]

/-! ## MCP data model and group handlers

The handlers are embedded from `blueprint-operations.ts`,
`doctype-operations.ts`, the workflow-operations module and
`index-helpers.ts` (its first version; the file also carries a later
variant of the same handler).  Each handler is written in explicit
state-passing style: it returns the MCP response together with the ordered
list of `callMethod` invocations it performed, and the remote call adapter
(`callMethod` in `frappe-api.ts`, not part of src/) is a parameter that
either returns a decoded JSON value or raises. -/

/-- One MCP content block (`{type: "text", text}`). -/
structure TextBlock where
  type : String
  text : String
  deriving Repr, DecidableEq

/-- The MCP tool-call response shape.  Handlers that omit `isError` on
success are modelled with `isError := false` (the transport treats an
absent flag as false). -/
structure ToolCallResponse where
  content : List TextBlock
  isError : Bool
  deriving Repr, DecidableEq

/-- A decoded tool-call request: tool name plus optional arguments object. -/
structure ToolCallRequest where
  name : String
  arguments : Option (List (String × Json))

/-- A `RemoteCallSpec`: the fully-qualified method plus the parameter
object handed to `callMethod`.  A parameter value of `none` models a
JavaScript `undefined` entry. -/
structure RemoteCall where
  method : String
  params : List (String × Option Json)
  deriving Repr, DecidableEq

/-- The behaviour of the remote call adapter `callMethod`. -/
def Adapter : Type := String → List (String × Option Json) → Except JsError Json

/-- `args.k` on a present arguments object. -/
def lookupArg (a : List (String × Json)) (k : String) : Option Json :=
  (a.find? (fun p => p.1 == k)).map (·.2)

/-- `args?.k`: property access through an optional arguments object. -/
def argVal (args : Option (List (String × Json))) (k : String) : Option Json :=
  args.bind (fun a => lookupArg a k)

/-- The raw value of a checked-present argument. -/
def argJs (a : List (String × Json)) (k : String) : Json :=
  (lookupArg a k).getD Json.null

def textResp (t : String) (e : Bool) : ToolCallResponse :=
  { content := [⟨"text", t⟩], isError := e }

/-- The repeated success block of the doctype-structure and workflow
handlers: `{content: [{type:"text", text: JSON.stringify(result, null,
2)}], isError: !result.success}` guarded by the surrounding try/catch
(property access on a null result raises). -/
def utilCallRespond (adapter : Adapter) (call : RemoteCall) :
    Except JsError ToolCallResponse × List RemoteCall :=
  (match adapter call.method call.params with
   | .ok result =>
       match getPropD result "success" with
       | .ok s => .ok (textResp (prettyStr result) (!truthyOpt s))
       | .error e => .error e
   | .error e => .error e, [call])

/-- The try-block of `handleBlueprintToolCall` (`blueprint-operations.ts`):
response-or-exception, plus the `callMethod` invocations made. -/
def blueprintBody (adapter : Adapter) (req : ToolCallRequest) :
    Except JsError ToolCallResponse × List RemoteCall :=
    if req.name = "execute_blueprint" then
      match req.arguments with
      | none => (.error ⟨"Missing arguments for execute_blueprint", ""⟩, [])
      | some args =>
          let call : RemoteCall :=
            ⟨"sentra_core.bl_engine.core.blueprint_executor.execute_blueprint_manually",
             [("blueprint_name", lookupArg args "blueprint_name"),
              ("doc", lookupArg args "doc_data")]⟩
          (match adapter call.method call.params with
           | .ok result =>
               .ok (textResp ("Blueprint executed successfully:\n\n" ++ prettyStr result) false)
           | .error e => .error e, [call])
    else if req.name = "list_blueprints" then
      let call : RemoteCall :=
        ⟨"frappe.client.get_list",
         [("doctype", some (Json.str "BL Blueprint")),
          ("filters", some (jsOr (argVal req.arguments "filters")
            (Json.obj [("is_active", Json.num 1)]))),
          ("fields", some (Json.arr [Json.str "name", Json.str "blueprint_description"]))]⟩
      (match adapter call.method call.params with
       | .ok result =>
           .ok (textResp ("Available blueprints:\n\n" ++ prettyStr result) false)
       | .error e => .error e, [call])
    else if req.name = "get_blueprint_info" then
      match req.arguments with
      | none => (.error ⟨"Missing arguments for get_blueprint_info", ""⟩, [])
      | some args =>
          let call : RemoteCall :=
            ⟨"frappe.client.get",
             [("doctype", some (Json.str "BL Blueprint")),
              ("name", lookupArg args "blueprint_name")]⟩
          (match adapter call.method call.params with
           | .ok result =>
               .ok (textResp ("Blueprint details:\n\n" ++ prettyStr result) false)
           | .error e => .error e, [call])
    else (.ok (textResp ("Unknown blueprint tool: " ++ req.name) true), [])

/-- `handleBlueprintToolCall` from `blueprint-operations.ts`: the
try-block plus its catch. -/
def handleBlueprintToolCall (adapter : Adapter) (req : ToolCallRequest) :
    ToolCallResponse × List RemoteCall :=
  match blueprintBody adapter req with
  | (.ok r, cs) => (r, cs)
  | (.error e, cs) => (textResp ("Error: " ++ e.message) true, cs)

/-- The try-block of `handleDoctypeOperationsToolCall`
(`doctype-operations.ts`). -/
def doctypeOperationsBody (adapter : Adapter) (req : ToolCallRequest) :
    Except JsError ToolCallResponse × List RemoteCall :=
    if req.name = "create_doctype" then
      if !truthyOpt (argVal req.arguments "name") ||
          !truthyOpt (argVal req.arguments "fields") then
        (.error ⟨"Missing required arguments: name and fields are required", ""⟩, [])
      else
        utilCallRespond adapter
          ⟨"sentra_core.builder.tools.data_tools.create_doctype_util",
           [("name", argVal req.arguments "name"),
            ("fields", argVal req.arguments "fields"),
            ("module", some (jsOr (argVal req.arguments "module")
              (Json.str "Sentra Core"))),
            ("naming_rule", some (jsOr (argVal req.arguments "naming_rule")
              (Json.str "By fieldname"))),
            ("autoname", some (jsOr (argVal req.arguments "autoname") Json.null))]⟩
    else if req.name = "create_child_table" then
      if !truthyOpt (argVal req.arguments "parent_doctype") ||
          !truthyOpt (argVal req.arguments "child_doctype_name") ||
          !truthyOpt (argVal req.arguments "child_fields") then
        (.error ⟨"Missing required arguments: parent_doctype, child_doctype_name, and child_fields are required", ""⟩, [])
      else
        utilCallRespond adapter
          ⟨"sentra_core.builder.tools.data_tools.create_child_table_util",
           [("parent_doctype", argVal req.arguments "parent_doctype"),
            ("child_doctype_name", argVal req.arguments "child_doctype_name"),
            ("child_fields", argVal req.arguments "child_fields"),
            ("parent_field_label", some (jsOr (argVal req.arguments "parent_field_label")
              Json.null))]⟩
    else if req.name = "add_fields_to_doctype" then
      if !truthyOpt (argVal req.arguments "doctype_name") ||
          !truthyOpt (argVal req.arguments "fields") then
        (.error ⟨"Missing required arguments: doctype_name and fields are required", ""⟩, [])
      else
        utilCallRespond adapter
          ⟨"sentra_core.builder.tools.data_tools.add_fields_to_doctype_util",
           [("doctype_name", argVal req.arguments "doctype_name"),
            ("fields", argVal req.arguments "fields")]⟩
    else if req.name = "delete_doctype" then
      if !truthyOpt (argVal req.arguments "doctype_name") then
        (.error ⟨"Missing required argument: doctype_name", ""⟩, [])
      else
        utilCallRespond adapter
          ⟨"sentra_core.builder.tools.data_tools.delete_doctype",
           [("doctype_name", argVal req.arguments "doctype_name")]⟩
    else (.ok (textResp ("Unknown DocType operations tool: " ++ req.name) true), [])

/-- `handleDoctypeOperationsToolCall` from `doctype-operations.ts`: the
try-block plus its catch. -/
def handleDoctypeOperationsToolCall (adapter : Adapter) (req : ToolCallRequest) :
    ToolCallResponse × List RemoteCall :=
  match doctypeOperationsBody adapter req with
  | (.ok r, cs) => (r, cs)
  | (.error e, cs) =>
      (textResp ("Error: " ++ e.message ++ "\n\nStack: " ++ e.stack) true, cs)

/-- The try-block of `handleWorkflowToolCall` (workflow-operations
module). -/
def workflowBody (adapter : Adapter) (req : ToolCallRequest) :
    Except JsError ToolCallResponse × List RemoteCall :=
    if req.name = "create_blueprint" then
      if !truthyOpt (argVal req.arguments "name") ||
          !truthyOpt (argVal req.arguments "triggers") ||
          !truthyOpt (argVal req.arguments "actions") then
        (.error ⟨"Missing required arguments: name, triggers, and actions are required", ""⟩, [])
      else
        utilCallRespond adapter
          ⟨"sentra_core.builder.tools.workflow_tools.create_blueprint_util",
           [("name", argVal req.arguments "name"),
            ("triggers", argVal req.arguments "triggers"),
            ("actions", argVal req.arguments "actions"),
            ("description", some (jsOr (argVal req.arguments "description") Json.null)),
            ("parameters", some (jsOr (argVal req.arguments "parameters") Json.null))]⟩
    else if req.name = "read_blueprint" then
      if !truthyOpt (argVal req.arguments "blueprint_id") then
        (.error ⟨"Missing required argument: blueprint_id", ""⟩, [])
      else
        utilCallRespond adapter
          ⟨"sentra_core.builder.tools.workflow_tools.read_blueprint_util",
           [("blueprint_id", argVal req.arguments "blueprint_id")]⟩
    else if req.name = "update_blueprint" then
      if !truthyOpt (argVal req.arguments "blueprint_id") then
        (.error ⟨"Missing required argument: blueprint_id", ""⟩, [])
      else
        utilCallRespond adapter
          ⟨"sentra_core.builder.tools.workflow_tools.update_blueprint_util",
           [("blueprint_id", argVal req.arguments "blueprint_id"),
            ("triggers", some (jsOr (argVal req.arguments "triggers") Json.null)),
            ("actions", some (jsOr (argVal req.arguments "actions") Json.null)),
            ("description", some (jsOr (argVal req.arguments "description") Json.null)),
            ("parameters", some (jsOr (argVal req.arguments "parameters") Json.null))]⟩
    else if req.name = "delete_blueprint" then
      if !truthyOpt (argVal req.arguments "blueprint_id") then
        (.error ⟨"Missing required argument: blueprint_id", ""⟩, [])
      else
        utilCallRespond adapter
          ⟨"sentra_core.builder.tools.workflow_tools.delete_blueprint_util",
           [("blueprint_id", argVal req.arguments "blueprint_id")]⟩
    else if req.name = "list_blueprints" then
      utilCallRespond adapter
        ⟨"sentra_core.builder.tools.workflow_tools.list_blueprints_util",
         [("filters", some (jsOr (argVal req.arguments "filters") Json.null))]⟩
    else if req.name = "validate_blueprint" then
      if !truthyOpt (argVal req.arguments "blueprint_json") then
        (.error ⟨"Missing required argument: blueprint_json", ""⟩, [])
      else
        utilCallRespond adapter
          ⟨"sentra_core.builder.tools.workflow_tools.validate_blueprint_util",
           [("blueprint_json", argVal req.arguments "blueprint_json")]⟩
    else if req.name = "get_available_events" then
      utilCallRespond adapter
        ⟨"sentra_core.builder.tools.workflow_tools.get_available_events_util", []⟩
    else if req.name = "get_available_actions" then
      utilCallRespond adapter
        ⟨"sentra_core.builder.tools.workflow_tools.get_available_actions_util", []⟩
    else (.ok (textResp ("Unknown workflow tool: " ++ req.name) true), [])

/-- `handleWorkflowToolCall` from the workflow-operations module: the
try-block plus its catch. -/
def handleWorkflowToolCall (adapter : Adapter) (req : ToolCallRequest) :
    ToolCallResponse × List RemoteCall :=
  match workflowBody adapter req with
  | (.ok r, cs) => (r, cs)
  | (.error e, cs) =>
      (textResp ("Error: " ++ e.message ++ "\n\nStack: " ++ e.stack) true, cs)

/-- The apostrophe character, used in one handler message. -/
def apos : String := String.mk [Char.ofNat 39]

/-- Behaviour of the helper functions imported from `frappe-helpers.ts` and
`frappe-instructions.ts` (files not in src/): each may return a decoded
value or raise, exactly like the remote call adapter. -/
structure HelperBehavior where
  findDocTypes : Json → List (String × Option Json) → Except JsError Json
  getModuleList : Except JsError Json
  getDocTypesInModule : Json → Except JsError Json
  doesDocTypeExist : Json → Except JsError Json
  doesDocumentExist : Json → Json → Except JsError Json
  getDocumentCount : Json → Json → Except JsError Json
  getNamingSeriesInfo : Json → Except JsError Json
  getRequiredFields : Json → Except JsError Json
  getInstructions : Json → Json → Except JsError String

/-- `handleHelperToolCall` from `index-helpers.ts` (first version in the
file).  Success responses that omit `isError` are modelled with
`isError := false`. -/
def helperBody (adapter : Adapter) (hb : HelperBehavior)
    (req : ToolCallRequest) (args : List (String × Json)) :
    Except JsError ToolCallResponse × List RemoteCall :=
        if req.name = "find_doctypes" then
          let searchTerm := jsOr (lookupArg args "search_term") (Json.str "")
          let options : List (String × Option Json) :=
            [("module", lookupArg args "module"),
             ("isTable", lookupArg args "is_table"),
             ("isSingle", lookupArg args "is_single"),
             ("isCustom", lookupArg args "is_custom"),
             ("limit", some (jsOr (lookupArg args "limit") (Json.num 20)))]
          ((hb.findDocTypes searchTerm options).map fun r =>
            textResp (prettyStr r) false, [])
        else if req.name = "get_module_list" then
          (hb.getModuleList.map fun r => textResp (prettyStr r) false, [])
        else if req.name = "get_doctypes_in_module" then
          if !truthyOpt (lookupArg args "module") then
            (.ok (textResp "Missing required parameter: module" true), [])
          else
            ((hb.getDocTypesInModule (argJs args "module")).map fun r =>
              textResp (prettyStr r) false, [])
        else if req.name = "check_doctype_exists" then
          if !truthyOpt (lookupArg args "doctype") then
            (.ok (textResp "Missing required parameter: doctype" true), [])
          else
            ((hb.doesDocTypeExist (argJs args "doctype")).map fun r =>
              textResp (prettyStr (Json.obj [("exists", r)])) false, [])
        else if req.name = "check_document_exists" then
          if !truthyOpt (lookupArg args "doctype") ||
              !truthyOpt (lookupArg args "name") then
            (.ok (textResp "Missing required parameters: doctype and name" true), [])
          else
            ((hb.doesDocumentExist (argJs args "doctype") (argJs args "name")).map fun r =>
              textResp (prettyStr (Json.obj [("exists", r)])) false, [])
        else if req.name = "get_document_count" then
          if !truthyOpt (lookupArg args "doctype") then
            (.ok (textResp "Missing required parameter: doctype" true), [])
          else
            ((hb.getDocumentCount (argJs args "doctype")
                (jsOr (lookupArg args "filters") (Json.obj []))).map fun r =>
              textResp (prettyStr (Json.obj [("count", r)])) false, [])
        else if req.name = "get_naming_info" then
          if !truthyOpt (lookupArg args "doctype") then
            (.ok (textResp "Missing required parameter: doctype" true), [])
          else
            ((hb.getNamingSeriesInfo (argJs args "doctype")).map fun r =>
              textResp (prettyStr r) false, [])
        else if req.name = "get_required_fields" then
          if !truthyOpt (lookupArg args "doctype") then
            (.ok (textResp "Missing required parameter: doctype" true), [])
          else
            ((hb.getRequiredFields (argJs args "doctype")).map fun r =>
              textResp (prettyStr r) false, [])
        else if req.name = "get_api_instructions" then
          if !truthyOpt (lookupArg args "category") ||
              !truthyOpt (lookupArg args "operation") then
            (.ok (textResp "Missing required parameters: category and operation" true), [])
          else
            ((hb.getInstructions (argJs args "category") (argJs args "operation")).map
              fun ins => textResp ins false, [])
        else if req.name = "send_whatsapp_message" then
          if !truthyOpt (lookupArg args "to") ||
              !truthyOpt (lookupArg args "message") then
            (.ok (textResp "Missing required parameters: to and message" true), [])
          else
            let call : RemoteCall :=
              ⟨"frappe_whatsapp.frappe_whatsapp.doctype.whatsapp_message.whatsapp_message.send_whatsapp_message",
               [("to", lookupArg args "to"),
                ("message", lookupArg args "message"),
                ("content_type", some (jsOr (lookupArg args "content_type")
                  (Json.str "text"))),
                ("reference_doctype", lookupArg args "reference_doctype"),
                ("reference_name", lookupArg args "reference_name")]⟩
            (match adapter call.method call.params with
             | .ok result =>
                 .ok (textResp
                   ("WhatsApp message sent successfully. Result: " ++ prettyStr result)
                   false)
             | .error e =>
                 .ok (textResp ("Failed to send WhatsApp message: " ++ e.message) true),
             [call])
        else if req.name = "send_instagram_message" then
          if !truthyOpt (lookupArg args "to") ||
              !truthyOpt (lookupArg args "message") then
            (.ok (textResp "Missing required parameters: to and message" true), [])
          else
            let call : RemoteCall :=
              ⟨"frappe_whatsapp.frappe_whatsapp.doctype.instagram_message.instagram_message.send_instagram_message",
               [("to", lookupArg args "to"),
                ("message", lookupArg args "message"),
                ("content_type", some (jsOr (lookupArg args "content_type")
                  (Json.str "text"))),
                ("reference_doctype", lookupArg args "reference_doctype"),
                ("reference_name", lookupArg args "reference_name")]⟩
            (match adapter call.method call.params with
             | .ok result =>
                 .ok (textResp
                   ("Instagram message sent successfully. Result: " ++ prettyStr result)
                   false)
             | .error e =>
                 .ok (textResp ("Failed to send Instagram message: " ++ e.message) true),
             [call])
        else
          (.ok (textResp ("Helper module doesn" ++ apos ++ "t handle tool: " ++ req.name)
            true), [])

def handleHelperToolCall (adapter : Adapter) (hb : HelperBehavior)
    (req : ToolCallRequest) : ToolCallResponse × List RemoteCall :=
  match req.arguments with
  | none => (textResp "Missing arguments for tool call" true, [])
  | some args =>
      match helperBody adapter hb req args with
      | (.ok r, cs) => (r, cs)
      | (.error e, cs) =>
          (textResp ("Error in helper tool " ++ req.name ++ ": " ++ e.message) true, cs)

/-! ## Registry and dispatcher (`index.ts`) -/

/-- Tool names of `BLUEPRINT_TOOLS` (`blueprint-operations.ts`). -/
def BLUEPRINT_TOOL_NAMES : List String :=
  ["execute_blueprint", "list_blueprints", "get_blueprint_info"]

/-- Tool names of `DOCTYPE_OPERATIONS_TOOLS` (`doctype-operations.ts`). -/
def DOCTYPE_OPERATIONS_TOOL_NAMES : List String :=
  ["create_doctype", "create_child_table", "add_fields_to_doctype", "delete_doctype"]

/-- Tool names of `WORKFLOW_TOOLS` (the workflow-operations module). -/
def WORKFLOW_TOOL_NAMES : List String :=
  ["create_blueprint", "read_blueprint", "update_blueprint", "delete_blueprint",
   "list_blueprints", "validate_blueprint", "get_available_events",
   "get_available_actions"]

/-- Modelled from the spec: the tool names of `DOCUMENT_TOOLS`
(document-operations.ts is not in src/) — the document CRUD tools of
spec §6 plus the generic `call_method` passthrough. -/
def DOCUMENT_TOOL_NAMES : List String :=
  ["call_method", "create_document", "get_document", "update_document",
   "delete_document", "list_documents"]

/-- Modelled from the spec: the tool names of `SCHEMA_TOOLS`
(schema-operations.ts is not in src/) — the schema introspection tools of
spec §6. -/
def SCHEMA_TOOL_NAMES : List String :=
  ["get_doctype_schema", "get_field_options"]

/-- Modelled from the spec: the tool names of `HELPER_TOOLS`
(frappe-instructions.ts is not in src/) — taken from the cases the helper
handler answers (spec §6: helper/diagnostic queries and messaging send). -/
def HELPER_TOOL_NAMES : List String :=
  ["find_doctypes", "get_module_list", "get_doctypes_in_module",
   "check_doctype_exists", "check_document_exists", "get_document_count",
   "get_naming_info", "get_required_fields", "get_api_instructions",
   "send_whatsapp_message", "send_instagram_message"]

/-- The `CallToolRequestSchema` handler set up by `createMcpServer`
(`index.ts` lines 45–53): membership in `DOCUMENT_TOOLS`, then
`SCHEMA_TOOLS`, then `HELPER_TOOLS`, then the built-in `ping`, else the
unknown-tool response.  The document and schema group handlers live in
files outside src/ and are parameters. -/
def dispatchToolCall (docNames schemaNames helperNames : List String)
    (documentHandler schemaHandler : ToolCallRequest → ToolCallResponse × List RemoteCall)
    (adapter : Adapter) (hb : HelperBehavior) (req : ToolCallRequest) :
    ToolCallResponse × List RemoteCall :=
  if docNames.any (fun n => n == req.name) then documentHandler req
  else if schemaNames.any (fun n => n == req.name) then schemaHandler req
  else if helperNames.any (fun n => n == req.name) then
    handleHelperToolCall adapter hb req
  else if req.name = "ping" then
    ({ content := [⟨"text", "pong"⟩], isError := false }, [])
  else (textResp ("Unknown tool: " ++ req.name) true, [])

/-! ## Static hint loader (the hints module of the repository)

`loadStaticHints` resets the module-global `staticHints` record to two
fresh empty maps and then populates them in place, file by file.  A file is
modelled by its `JSON.parse` outcome (`none` = the read or parse raised,
which the per-file catch turns into a logged skip).  `processHint` models
one iteration of the inner loop, with every JavaScript throw point
explicit. -/

/-- A JavaScript `Map` keyed by the raw `hint.target` values. -/
def HintMap : Type := List (Json × List Json)

instance : DecidableEq HintMap := inferInstanceAs (DecidableEq (List (Json × List Json)))

structure StaticHints where
  doctype : HintMap
  workflow : HintMap
  deriving DecidableEq

def emptyHints : StaticHints := ⟨[], []⟩

def mapGet (m : HintMap) (k : Json) : Option (List Json) :=
  ((m : List (Json × List Json)).find? (fun p => p.1 == k)).map (·.2)

def mapSet : HintMap → Json → List Json → HintMap
  | [], k, v => [(k, v)]
  | (k₀, v₀) :: rest, k, v =>
      if k₀ == k then (k, v) :: rest else (k₀, v₀) :: mapSet rest k v

/-- `existing = map.get(target) || []; existing.push(hint);
map.set(target, existing)`. -/
def insertHint (m : HintMap) (k : Json) (h : Json) : HintMap :=
  mapSet m k (((mapGet m k).getD []) ++ [h])

/-- One iteration of the hint loop: the validation `continue`s, then
`staticHints[hint.type]` — which is `undefined` for any truthy type other
than `"doctype"`/`"workflow"`, so the subsequent `.get` raises.  A `null`
hint raises at the very first property access. -/
def processHint (g : StaticHints) (h : Json) : Except JsError StaticHints := do
  let t ← getPropD h "type"
  if !truthyOpt t then pure g
  else do
    let tgt ← getPropD h "target"
    if !truthyOpt tgt then pure g
    else
      if t == some (Json.str "doctype") then do
        let hv ← getPropD h "hint"
        if !truthyOpt hv then pure g
        else pure { g with doctype := insertHint g.doctype (tgt.getD Json.null) h }
      else if t == some (Json.str "workflow") then do
        let sv ← getPropD h "steps"
        if !truthyOpt sv || !isArrayOpt sv then pure g
        else pure { g with workflow := insertHint g.workflow (tgt.getD Json.null) h }
      else
        .error ⟨"Cannot read properties of undefined (reading get)", ""⟩

/-- The per-file hint loop: a raising hint aborts the remainder of the
file (the per-file catch logs and moves on), keeping the mutations made so
far. -/
def processHints (g : StaticHints) : List Json → StaticHints
  | [] => g
  | h :: rest =>
      match processHint g h with
      | .ok g' => processHints g' rest
      | .error _ => g

/-- Processing one file: unparseable files are skipped, as are parsed
values that are not arrays. -/
def processFile (g : StaticHints) (f : Option Json) : StaticHints :=
  match f with
  | none => g
  | some (Json.arr hints) => processHints g hints
  | some _ => g

/-- `loadStaticHints`: reset the global to empty maps, then fold the
files into it; if listing the directory raises, the outer catch returns
the (freshly reset) global. -/
def loadStaticHints (dir : Except JsError (List (Option Json))) : StaticHints :=
  match dir with
  | .error _ => emptyHints
  | .ok files => files.foldl processFile emptyHints

/-- The successive values of the module-global `staticHints` during a
load: the state before the call, the state right after the reset, and the
state after each file. -/
def loadStaticHintsStates (g : StaticHints) : List (Option Json) → List StaticHints
  | [] => [g]
  | f :: fs => g :: loadStaticHintsStates (processFile g f) fs

def loadStaticHintsTrace (g₀ : StaticHints) (files : List (Option Json)) :
    List StaticHints :=
  g₀ :: loadStaticHintsStates emptyHints files

/-- `getDocTypeHints` reads the global map directly. -/
def getDocTypeHints (g : StaticHints) (doctype : String) : List Json :=
  (mapGet g.doctype (Json.str doctype)).getD []

/-- `getWorkflowHints` reads the global map directly. -/
def getWorkflowHints (g : StaticHints) (workflow : String) : List Json :=
  (mapGet g.workflow (Json.str workflow)).getD []

/-! ## Schema helpers (`getDocTypeSchema`, `getFieldOptions`)

`getDocument` (document-api.ts) and `handleApiError` (errors.ts) are not
in src/ and enter as behaviour parameters; `frappe.db().getDocList` is the
document-list call the claims count. -/

mutual

/-- JavaScript `String(v)` as used by template literals. -/
def jsToStr : Json → String
  | .null => "null"
  | .bool true => "true"
  | .bool false => "false"
  | .num n => String.mk (intChars n)
  | .str s => s
  | .arr l => jsToStrList l
  | .obj _ => "[object Object]"

def jsToStrList : List Json → String
  | [] => ""
  | [x] => match x with
      | .null => ""
      | x => jsToStr x
  | x :: xs => (match x with
      | .null => ""
      | x => jsToStr x) ++ "," ++ jsToStrList xs

end

def jsToStrOpt : Option Json → String
  | none => "undefined"
  | some v => jsToStr v

/-- `getDocTypeSchema` from the schema module: fetch the DocType document
and reshape it; the inner catch rewraps any failure, the outer catch
defers to `handleApiError`. -/
def getDocTypeSchema (getDoc : String → String → Except JsError Json)
    (apiErr : JsError → String → Except JsError Json) (doctype : String) :
    Except JsError Json :=
  let body : Except JsError Json :=
    if doctype = "" then .error ⟨"DocType name is required", ""⟩
    else
      let inner : Except JsError Json := do
        let doc ← getDoc "DocType" doctype
        if !truthy doc then .error ⟨"DocType " ++ doctype ++ " not found", ""⟩
        else
          pure (Json.obj (List.filterMap (fun p => p.2.map (fun v => (p.1, v)))
            [("name", some (Json.str doctype)),
             ("label", some (jsOr (getPropT doc "name") (Json.str doctype))),
             ("description", getPropT doc "description"),
             ("module", getPropT doc "module"),
             ("issingle", some (Json.bool (getPropT doc "issingle" == some (Json.num 1)))),
             ("istable", some (Json.bool (getPropT doc "istable" == some (Json.num 1)))),
             ("custom", some (Json.bool (getPropT doc "custom" == some (Json.num 1)))),
             ("fields", some (jsOr (getPropT doc "fields") (Json.arr []))),
             ("permissions", some (jsOr (getPropT doc "permissions") (Json.arr []))),
             ("autoname", getPropT doc "autoname"),
             ("name_case", getPropT doc "name_case")]))
      match inner with
      | .ok v => .ok v
      | .error _ =>
          .error ⟨"Could not retrieve schema for DocType " ++ doctype ++
            " using document API", ""⟩
  match body with
  | .ok v => .ok v
  | .error e => apiErr e ("get_doctype_schema(" ++ doctype ++ ")")

/-- One `frappe.db().getDocList` invocation. -/
structure DocListCall where
  doctype : Json
  limit : Nat
  fields : List (Option Json)
  filters : Option Json
  deriving Repr, DecidableEq

/-- `schema.fields.find(f => f.fieldname === fieldname)`: property access
on each element can raise. -/
def findField (fieldname : String) : List Json → Except JsError (Option Json)
  | [] => .ok none
  | fj :: rest => do
      let fv ← getPropD fj "fieldname"
      if fv == some (Json.str fieldname) then pure (some fj)
      else findField fieldname rest

/-- `linkedSchema.fields.find(f => f.fieldname === "title" || f.bold === 1)`. -/
def findTitleField : List Json → Except JsError (Option Json)
  | [] => .ok none
  | fj :: rest => do
      let fv ← getPropD fj "fieldname"
      if fv == some (Json.str "title") then pure (some fj)
      else do
        let bv ← getPropD fj "bold"
        if bv == some (Json.num 1) then pure (some fj)
        else findTitleField rest

/-- The Link branch's `response.map(...)` with the title-field label. -/
def linkRows (tf : Option Json) : List Json → Except JsError (List Json)
  | [] => .ok []
  | item :: rest => do
      let nm ← getPropD item "name"
      let labelVal : Option Json :=
        match tf with
        | some tfj =>
            let tv := getPropT item (jsToStrOpt (getPropT tfj "fieldname"))
            if truthyOpt tv then
              some (Json.str (jsToStrOpt nm ++ " - " ++ jsToStrOpt tv))
            else nm
        | none => nm
      let rest' ← linkRows tf rest
      pure (Json.obj (List.filterMap (fun p => p.2.map (fun v => (p.1, v)))
        [("value", nm), ("label", labelVal)]) :: rest')

/-- The fallback branch's `response.map(item => ({value: item.name,
label: item.name}))`. -/
def simpleRows : List Json → Except JsError (List Json)
  | [] => .ok []
  | item :: rest => do
      let nm ← getPropD item "name"
      let rest' ← simpleRows rest
      pure (Json.obj (List.filterMap (fun p => p.2.map (fun v => (p.1, v)))
        [("value", nm), ("label", nm)]) :: rest')

/-- `getFieldOptions` from the schema module, returning its result along
with the ordered list of document-list calls issued. -/
def getFieldOptions (getDoc : String → String → Except JsError Json)
    (gdl : DocListCall → Except JsError Json)
    (apiErr : JsError → String → Except JsError Json)
    (doctype fieldname : String) (filters : Option Json) :
    Except JsError Json × List DocListCall :=
  let body : Except JsError Json × List DocListCall :=
    if doctype = "" then (.error ⟨"DocType name is required", ""⟩, [])
    else if fieldname = "" then (.error ⟨"Field name is required", ""⟩, [])
    else
      match getDocTypeSchema getDoc apiErr doctype with
      | .error e => (.error e, [])
      | .ok schema =>
          let fieldsV := if truthy schema then getPropT schema "fields" else none
          if !truthy schema || !truthyOpt fieldsV || !isArrayOpt fieldsV then
            (.error ⟨"Invalid schema returned for DocType " ++ doctype, ""⟩, [])
          else
            match fieldsV with
            | some (Json.arr fieldsL) =>
                (match findField fieldname fieldsL with
                 | .error e => (.error e, [])
                 | .ok none =>
                     (.error ⟨"Field " ++ fieldname ++ " not found in DocType " ++
                       doctype, ""⟩, [])
                 | .ok (some field) =>
                     match getPropD field "fieldtype" with
                     | .error e => (.error e, [])
                     | .ok ftv =>
                         if ftv == some (Json.str "Link") then
                           match getPropD field "options" with
                           | .error e => (.error e, [])
                           | .ok ldtv =>
                               if !truthyOpt ldtv then
                                 (.error ⟨"Link field " ++ fieldname ++
                                   " has no options (linked DocType) specified", ""⟩, [])
                               else
                                 let ldt := ldtv.getD Json.null
                                 let attempt : Except JsError Json × List DocListCall :=
                                   match getDocTypeSchema getDoc apiErr (jsToStr ldt) with
                                   | .error e => (.error e, [])
                                   | .ok linkedSchema =>
                                       match getPropD linkedSchema "fields" with
                                       | .error e => (.error e, [])
                                       | .ok fv =>
                                           match (match fv with
                                                  | some (Json.arr fl) => findTitleField fl
                                                  | _ => Except.error
                                                      (⟨"linkedSchema.fields.find is not a function", ""⟩ : JsError)) with
                                           | .error e => (.error e, [])
                                           | .ok tf =>
                                               let displayFields :=
                                                 match tf with
                                                 | some tfj => [some (Json.str "name"),
                                                     getPropT tfj "fieldname"]
                                                 | none => [some (Json.str "name")]
                                               let call₁ : DocListCall :=
                                                 ⟨ldt, 50, displayFields, filters⟩
                                               match gdl call₁ with
                                               | .error e => (.error e, [call₁])
                                               | .ok response =>
                                                   if !truthy response then
                                                     (.error ⟨"Invalid response for DocType " ++
                                                       jsToStr ldt, ""⟩, [call₁])
                                                   else
                                                     match response with
                                                     | Json.arr items =>
                                                         ((linkRows tf items).map Json.arr,
                                                          [call₁])
                                                     | _ =>
                                                         (.error ⟨"response.map is not a function", ""⟩,
                                                          [call₁])
                                 match attempt with
                                 | (.ok v, cs) => (.ok v, cs)
                                 | (.error _, cs) =>
                                     let call₂ : DocListCall :=
                                       ⟨ldt, 50, [some (Json.str "name")], filters⟩
                                     match gdl call₂ with
                                     | .error e => (.error e, cs ++ [call₂])
                                     | .ok response =>
                                         if !truthy response then
                                           (.error ⟨"Invalid response for DocType " ++
                                             jsToStr ldt, ""⟩, cs ++ [call₂])
                                         else
                                           match response with
                                           | Json.arr items =>
                                               ((simpleRows items).map Json.arr,
                                                cs ++ [call₂])
                                           | _ =>
                                               (.error ⟨"response.map is not a function", ""⟩,
                                                cs ++ [call₂])
                         else if ftv == some (Json.str "Select") then
                           match getPropD field "options" with
                           | .error e => (.error e, [])
                           | .ok ov =>
                               if !truthyOpt ov then (.ok (Json.arr []), [])
                               else
                                 match ov with
                                 | some (Json.str s) =>
                                     (.ok (Json.arr ((s.splitOn "\n").filter
                                        (fun o => o.trim ≠ "") |>.map (fun o =>
                                          Json.obj [("value", Json.str o.trim),
                                                    ("label", Json.str o.trim)]))), [])
                                 | _ =>
                                     (.error ⟨"field.options.split is not a function", ""⟩, [])
                         else if ftv == some (Json.str "Table") then
                           (.ok (Json.arr []), [])
                         else (.ok (Json.arr []), []))
            | _ => (.error ⟨"Invalid schema returned for DocType " ++ doctype, ""⟩, [])
  match body with
  | (.ok v, cs) => (.ok v, cs)
  | (.error e, cs) =>
      match apiErr e ("get_field_options(" ++ doctype ++ ", " ++ fieldname ++ ")") with
      | .ok v => (.ok v, cs)
      | .error e' => (.error e', cs)

/-! ## Infrastructure for the claim theorems -/

instance : LawfulBEq Json where
  eq_of_beq h := (jsonBEq_iff _ _).mp h
  rfl := (jsonBEq_iff _ _).mpr rfl

/-- Substring occurrence on character lists. -/
def occursIn (pat : List Char) : List Char → Bool
  | [] => pat.isEmpty
  | c :: rest => pat.isPrefixOf (c :: rest) || occursIn pat rest

/-- `pat` occurs as a contiguous substring of `hay`. -/
def strContainsSub (hay pat : String) : Bool := occursIn pat.data hay.data

theorem isPrefixOf_append_self (p t : List Char) : p.isPrefixOf (p ++ t) = true := by
  induction p with
  | nil => simp [List.isPrefixOf]
  | cons c cs ih => simp [List.isPrefixOf, ih]

theorem occursIn_infix (pre pat suf : List Char) :
    occursIn pat (pre ++ (pat ++ suf)) = true := by
  induction pre with
  | nil =>
      cases pat with
      | nil => cases suf <;> simp [occursIn, List.isPrefixOf]
      | cons c cs =>
          have h := isPrefixOf_append_self (c :: cs) suf
          simp only [List.cons_append] at h
          simp [occursIn, h]
  | cons c cs ih =>
      cases pat with
      | nil => simp [occursIn, List.isEmpty]
      | cons p ps =>
          simp only [List.cons_append, List.append_assoc] at ih ⊢
          simp [occursIn, ih]

theorem strContainsSub_mid (pre pat suf : String) :
    strContainsSub (pre ++ (pat ++ suf)) pat = true := by
  simp only [strContainsSub, String.data_append]
  exact occursIn_infix pre.data pat.data suf.data

theorem strContainsSub_right (pre pat : String) :
    strContainsSub (pre ++ pat) pat = true := by
  have := strContainsSub_mid pre pat ""
  simpa using this

/-- The text of the first content block (all handler responses have
exactly one). -/
def headText (r : ToolCallResponse) : String :=
  match r.content with
  | b :: _ => b.text
  | [] => ""

/-- An adapter that always raises `e`. -/
def errorAdapter (e : JsError) : Adapter := fun _ _ => .error e

/-- An adapter that always returns `v`. -/
def okAdapter (v : Json) : Adapter := fun _ _ => .ok v

/-- A helper behaviour whose externals all raise (used to instantiate
closed statements; the branches under test never consult it). -/
def failingHelpers : HelperBehavior :=
  { findDocTypes := fun _ _ => .error ⟨"helper failure", ""⟩
    getModuleList := .error ⟨"helper failure", ""⟩
    getDocTypesInModule := fun _ => .error ⟨"helper failure", ""⟩
    doesDocTypeExist := fun _ => .error ⟨"helper failure", ""⟩
    doesDocumentExist := fun _ _ => .error ⟨"helper failure", ""⟩
    getDocumentCount := fun _ _ => .error ⟨"helper failure", ""⟩
    getNamingSeriesInfo := fun _ => .error ⟨"helper failure", ""⟩
    getRequiredFields := fun _ => .error ⟨"helper failure", ""⟩
    getInstructions := fun _ _ => .error ⟨"helper failure", ""⟩ }

/-- A constant group handler, standing in for the document/schema group
handlers (whose files are outside src/) in closed statements where the
dispatcher never reaches them. -/
def constHandler (r : ToolCallResponse) :
    ToolCallRequest → ToolCallResponse × List RemoteCall := fun _ => (r, [])

/-- Property access on a non-null value never raises and yields the
truthiness-relevant value. -/
theorem getPropD_ok (v : Json) (k : String) (h : v ≠ Json.null) :
    getPropD v k = .ok (getPropT v k) := by
  cases v
  case null => exact absurd rfl h
  all_goals rfl

/-! ### Body/catch transfer lemmas for the group handlers -/

theorem blueprintSnd (adapter : Adapter) (req : ToolCallRequest) :
    (handleBlueprintToolCall adapter req).2 = (blueprintBody adapter req).2 := by
  unfold handleBlueprintToolCall
  rcases h : blueprintBody adapter req with ⟨b, cs⟩
  cases b <;> rfl

theorem doctypeSnd (adapter : Adapter) (req : ToolCallRequest) :
    (handleDoctypeOperationsToolCall adapter req).2 =
      (doctypeOperationsBody adapter req).2 := by
  unfold handleDoctypeOperationsToolCall
  rcases h : doctypeOperationsBody adapter req with ⟨b, cs⟩
  cases b <;> rfl

theorem workflowSnd (adapter : Adapter) (req : ToolCallRequest) :
    (handleWorkflowToolCall adapter req).2 = (workflowBody adapter req).2 := by
  unfold handleWorkflowToolCall
  rcases h : workflowBody adapter req with ⟨b, cs⟩
  cases b <;> rfl

theorem helperSnd (adapter : Adapter) (hb : HelperBehavior) (req : ToolCallRequest)
    (args : List (String × Json)) (ha : req.arguments = some args) :
    (handleHelperToolCall adapter hb req).2 = (helperBody adapter hb req args).2 := by
  rcases h : helperBody adapter hb req args with ⟨b, cs⟩
  cases b <;> simp [handleHelperToolCall, ha, h]

theorem blueprintFst_ok (adapter : Adapter) (req : ToolCallRequest)
    (r : ToolCallResponse) (h : (blueprintBody adapter req).1 = Except.ok r) :
    (handleBlueprintToolCall adapter req).1 = r := by
  unfold handleBlueprintToolCall
  rcases hb : blueprintBody adapter req with ⟨b, cs⟩
  rw [hb] at h
  cases b with
  | ok a => simp at h; simp [h]
  | error e => simp at h

theorem blueprintFst_error (adapter : Adapter) (req : ToolCallRequest)
    (e : JsError) (h : (blueprintBody adapter req).1 = Except.error e) :
    (handleBlueprintToolCall adapter req).1 =
      textResp ("Error: " ++ e.message) true := by
  unfold handleBlueprintToolCall
  rcases hb : blueprintBody adapter req with ⟨b, cs⟩
  rw [hb] at h
  cases b with
  | ok a => simp at h
  | error e' => simp at h; simp [h]

theorem doctypeFst_ok (adapter : Adapter) (req : ToolCallRequest)
    (r : ToolCallResponse) (h : (doctypeOperationsBody adapter req).1 = Except.ok r) :
    (handleDoctypeOperationsToolCall adapter req).1 = r := by
  unfold handleDoctypeOperationsToolCall
  rcases hb : doctypeOperationsBody adapter req with ⟨b, cs⟩
  rw [hb] at h
  cases b with
  | ok a => simp at h; simp [h]
  | error e => simp at h

theorem doctypeFst_error (adapter : Adapter) (req : ToolCallRequest)
    (e : JsError) (h : (doctypeOperationsBody adapter req).1 = Except.error e) :
    (handleDoctypeOperationsToolCall adapter req).1 =
      textResp ("Error: " ++ e.message ++ "\n\nStack: " ++ e.stack) true := by
  unfold handleDoctypeOperationsToolCall
  rcases hb : doctypeOperationsBody adapter req with ⟨b, cs⟩
  rw [hb] at h
  cases b with
  | ok a => simp at h
  | error e' => simp at h; simp [h]

theorem workflowFst_ok (adapter : Adapter) (req : ToolCallRequest)
    (r : ToolCallResponse) (h : (workflowBody adapter req).1 = Except.ok r) :
    (handleWorkflowToolCall adapter req).1 = r := by
  unfold handleWorkflowToolCall
  rcases hb : workflowBody adapter req with ⟨b, cs⟩
  rw [hb] at h
  cases b with
  | ok a => simp at h; simp [h]
  | error e => simp at h

theorem workflowFst_error (adapter : Adapter) (req : ToolCallRequest)
    (e : JsError) (h : (workflowBody adapter req).1 = Except.error e) :
    (handleWorkflowToolCall adapter req).1 =
      textResp ("Error: " ++ e.message ++ "\n\nStack: " ++ e.stack) true := by
  unfold handleWorkflowToolCall
  rcases hb : workflowBody adapter req with ⟨b, cs⟩
  rw [hb] at h
  cases b with
  | ok a => simp at h
  | error e' => simp at h; simp [h]

theorem helperFst_ok (adapter : Adapter) (hb : HelperBehavior) (req : ToolCallRequest)
    (args : List (String × Json)) (ha : req.arguments = some args)
    (r : ToolCallResponse) (h : (helperBody adapter hb req args).1 = Except.ok r) :
    (handleHelperToolCall adapter hb req).1 = r := by
  rcases hbb : helperBody adapter hb req args with ⟨b, cs⟩
  rw [hbb] at h
  simp at h
  subst h
  simp [handleHelperToolCall, ha, hbb]

theorem helperFst_error (adapter : Adapter) (hb : HelperBehavior)
    (req : ToolCallRequest) (args : List (String × Json))
    (ha : req.arguments = some args) (e : JsError)
    (h : (helperBody adapter hb req args).1 = Except.error e) :
    (handleHelperToolCall adapter hb req).1 =
      textResp ("Error in helper tool " ++ req.name ++ ": " ++ e.message) true := by
  rcases hbb : helperBody adapter hb req args with ⟨b, cs⟩
  rw [hbb] at h
  simp at h
  subst h
  simp [handleHelperToolCall, ha, hbb]

/-- With an adapter returning `result`, any doctype-structure branch that
records a call answers with the pretty-printed result and the negated
`success` flag. -/
theorem doctypeBody_okAdapter (name : String) (args : Option (List (String × Json)))
    (result : Json) (hnull : result ≠ Json.null)
    (hcs : (doctypeOperationsBody (okAdapter result) ⟨name, args⟩).2 ≠ []) :
    (doctypeOperationsBody (okAdapter result) ⟨name, args⟩).1 =
      Except.ok (textResp (prettyStr result)
        (!truthyOpt (getPropT result "success"))) := by
  revert hcs
  unfold doctypeOperationsBody utilCallRespond
  simp only [okAdapter, getPropD_ok result "success" hnull]
  repeat' split
  all_goals intro hcs
  all_goals simp_all

/-- With an adapter returning `result`, any workflow branch that records a
call answers with the pretty-printed result and the negated `success`
flag. -/
theorem workflowBody_okAdapter (name : String) (args : Option (List (String × Json)))
    (result : Json) (hnull : result ≠ Json.null)
    (hcs : (workflowBody (okAdapter result) ⟨name, args⟩).2 ≠ []) :
    (workflowBody (okAdapter result) ⟨name, args⟩).1 =
      Except.ok (textResp (prettyStr result)
        (!truthyOpt (getPropT result "success"))) := by
  revert hcs
  unfold workflowBody utilCallRespond
  simp only [okAdapter, getPropD_ok result "success" hnull]
  repeat' split
  all_goals intro hcs
  all_goals simp_all

/-- With an adapter returning `result`, any blueprint branch that records
a call answers `isError = false` regardless of the result. -/
theorem blueprintBody_okAdapter (name : String) (args : Option (List (String × Json)))
    (result : Json)
    (hcs : (blueprintBody (okAdapter result) ⟨name, args⟩).2 ≠ []) :
    ∃ t, (blueprintBody (okAdapter result) ⟨name, args⟩).1 =
      Except.ok (textResp t false) := by
  revert hcs
  unfold blueprintBody
  simp only [okAdapter]
  repeat' split
  all_goals intro hcs
  all_goals simp_all
  all_goals exact ⟨_, rfl⟩

/-! ## The claims -/

/-- C9: for every tool-call request whose name is claimed by no group,
dispatch returns — a total function, so without raising — the response
`is_error = true` whose single text block is exactly (hence contains)
`"Unknown tool: "` followed by the requested name, and performs no remote
call. -/
theorem c9_unknown_tool_response
    (docNames schemaNames helperNames : List String)
    (documentHandler schemaHandler : ToolCallRequest → ToolCallResponse × List RemoteCall)
    (adapter : Adapter) (hb : HelperBehavior) (req : ToolCallRequest)
    (hdoc : docNames.any (fun n => n == req.name) = false)
    (hschema : schemaNames.any (fun n => n == req.name) = false)
    (hhelper : helperNames.any (fun n => n == req.name) = false)
    (hping : ¬req.name = "ping") :
    dispatchToolCall docNames schemaNames helperNames documentHandler schemaHandler
        adapter hb req =
      (textResp ("Unknown tool: " ++ req.name) true, []) ∧
    strContainsSub (headText (dispatchToolCall docNames schemaNames helperNames
        documentHandler schemaHandler adapter hb req).1)
      ("Unknown tool: " ++ req.name) = true := by
  have h : dispatchToolCall docNames schemaNames helperNames documentHandler
      schemaHandler adapter hb req = (textResp ("Unknown tool: " ++ req.name) true, []) := by
    unfold dispatchToolCall
    simp [hdoc, hschema, hhelper, hping]
  refine ⟨h, ?_⟩
  rw [h]
  have := strContainsSub_right "" ("Unknown tool: " ++ req.name)
  simpa [headText, textResp] using this

/-- C9 witness: `dispatch({tool_name: "unknown_tool_xyz"})` against the
concrete (spec-modelled) registries yields the unknown-tool error. -/
theorem c9_unknown_tool_response_witness :
    dispatchToolCall DOCUMENT_TOOL_NAMES SCHEMA_TOOL_NAMES HELPER_TOOL_NAMES
        (constHandler (textResp "doc" false)) (constHandler (textResp "schema" false))
        (errorAdapter ⟨"remote failure", ""⟩) failingHelpers
        ⟨"unknown_tool_xyz", none⟩ =
      (textResp "Unknown tool: unknown_tool_xyz" true, []) :=
  (c9_unknown_tool_response DOCUMENT_TOOL_NAMES SCHEMA_TOOL_NAMES HELPER_TOOL_NAMES
    (constHandler (textResp "doc" false)) (constHandler (textResp "schema" false))
    (errorAdapter ⟨"remote failure", ""⟩) failingHelpers ⟨"unknown_tool_xyz", none⟩
    (by decide) (by decide) (by decide) (by decide)).1

/-- C1 counterexample: the tool name `execute_blueprint` is owned only by
the blueprint group (`BLUEPRINT_TOOL_NAMES`), yet the dispatcher of
`index.ts` answers it with the unknown-tool error response — it is not
routed to `handleBlueprintToolCall`, whose answer for this request is a
missing-arguments error response, not an unknown-tool response. -/
theorem c1_counterexample :
    ("execute_blueprint" ∈ BLUEPRINT_TOOL_NAMES ∧
      dispatchToolCall DOCUMENT_TOOL_NAMES SCHEMA_TOOL_NAMES HELPER_TOOL_NAMES
          (constHandler (textResp "doc" false)) (constHandler (textResp "schema" false))
          (errorAdapter ⟨"remote failure", ""⟩) failingHelpers
          ⟨"execute_blueprint", none⟩ =
        (textResp "Unknown tool: execute_blueprint" true, [])) ∧
      (handleBlueprintToolCall (errorAdapter ⟨"remote failure", ""⟩)
          ⟨"execute_blueprint", none⟩).1 =
        textResp "Error: Missing arguments for execute_blueprint" true := by
  refine ⟨⟨by decide, ?_⟩, ?_⟩ <;> rfl

/-- C1 amended: the dispatcher resolves the tool name against only the
document, schema and helper registries — in that priority order — then the
built-in `ping`; any other name, including the names owned solely by the
blueprint, doctype-structure and workflow groups, receives the
unknown-tool error response. -/
theorem c1_dispatch_order
    (docNames schemaNames helperNames : List String)
    (documentHandler schemaHandler : ToolCallRequest → ToolCallResponse × List RemoteCall)
    (adapter : Adapter) (hb : HelperBehavior) (req : ToolCallRequest) :
    (docNames.any (fun n => n == req.name) = true →
      dispatchToolCall docNames schemaNames helperNames documentHandler schemaHandler
        adapter hb req = documentHandler req) ∧
    (docNames.any (fun n => n == req.name) = false →
      schemaNames.any (fun n => n == req.name) = true →
      dispatchToolCall docNames schemaNames helperNames documentHandler schemaHandler
        adapter hb req = schemaHandler req) ∧
    (docNames.any (fun n => n == req.name) = false →
      schemaNames.any (fun n => n == req.name) = false →
      helperNames.any (fun n => n == req.name) = true →
      dispatchToolCall docNames schemaNames helperNames documentHandler schemaHandler
        adapter hb req = handleHelperToolCall adapter hb req) ∧
    (docNames.any (fun n => n == req.name) = false →
      schemaNames.any (fun n => n == req.name) = false →
      helperNames.any (fun n => n == req.name) = false →
      req.name = "ping" →
      dispatchToolCall docNames schemaNames helperNames documentHandler schemaHandler
        adapter hb req = (⟨[⟨"text", "pong"⟩], false⟩, [])) ∧
    (docNames.any (fun n => n == req.name) = false →
      schemaNames.any (fun n => n == req.name) = false →
      helperNames.any (fun n => n == req.name) = false →
      ¬req.name = "ping" →
      dispatchToolCall docNames schemaNames helperNames documentHandler schemaHandler
        adapter hb req = (textResp ("Unknown tool: " ++ req.name) true, [])) := by
  refine ⟨?_, ?_, ?_, ?_, ?_⟩
  · intro h₁
    unfold dispatchToolCall
    simp [h₁]
  · intro h₁ h₂
    unfold dispatchToolCall
    simp [h₁, h₂]
  · intro h₁ h₂ h₃
    unfold dispatchToolCall
    simp [h₁, h₂, h₃]
  · intro h₁ h₂ h₃ h₄
    unfold dispatchToolCall
    rw [h₄] at h₁ h₂ h₃ ⊢
    simp [h₁, h₂, h₃]
  · intro h₁ h₂ h₃ h₄
    unfold dispatchToolCall
    simp [h₁, h₂, h₃, h₄]

/-- C1 witness: against the concrete registries, `create_document` goes to
the document group, `find_doctypes` to the helper handler, `ping` answers
pong, and the workflow-only name `create_blueprint` is answered unknown. -/
theorem c1_dispatch_order_witness :
    (dispatchToolCall DOCUMENT_TOOL_NAMES SCHEMA_TOOL_NAMES HELPER_TOOL_NAMES
        (constHandler (textResp "doc" false)) (constHandler (textResp "schema" false))
        (errorAdapter ⟨"remote failure", ""⟩) failingHelpers
        ⟨"create_document", none⟩ = (textResp "doc" false, [])) ∧
    (dispatchToolCall DOCUMENT_TOOL_NAMES SCHEMA_TOOL_NAMES HELPER_TOOL_NAMES
        (constHandler (textResp "doc" false)) (constHandler (textResp "schema" false))
        (errorAdapter ⟨"remote failure", ""⟩) failingHelpers
        ⟨"find_doctypes", none⟩ =
      handleHelperToolCall (errorAdapter ⟨"remote failure", ""⟩) failingHelpers
        ⟨"find_doctypes", none⟩) ∧
    (dispatchToolCall DOCUMENT_TOOL_NAMES SCHEMA_TOOL_NAMES HELPER_TOOL_NAMES
        (constHandler (textResp "doc" false)) (constHandler (textResp "schema" false))
        (errorAdapter ⟨"remote failure", ""⟩) failingHelpers
        ⟨"ping", none⟩ = (⟨[⟨"text", "pong"⟩], false⟩, [])) ∧
    (dispatchToolCall DOCUMENT_TOOL_NAMES SCHEMA_TOOL_NAMES HELPER_TOOL_NAMES
        (constHandler (textResp "doc" false)) (constHandler (textResp "schema" false))
        (errorAdapter ⟨"remote failure", ""⟩) failingHelpers
        ⟨"create_blueprint", none⟩ =
      (textResp "Unknown tool: create_blueprint" true, [])) := by
  refine ⟨?_, ?_, ?_, ?_⟩
  · exact (c1_dispatch_order DOCUMENT_TOOL_NAMES SCHEMA_TOOL_NAMES HELPER_TOOL_NAMES
      (constHandler (textResp "doc" false)) (constHandler (textResp "schema" false))
      (errorAdapter ⟨"remote failure", ""⟩) failingHelpers
      ⟨"create_document", none⟩).1 (by decide)
  · exact (c1_dispatch_order DOCUMENT_TOOL_NAMES SCHEMA_TOOL_NAMES HELPER_TOOL_NAMES
      (constHandler (textResp "doc" false)) (constHandler (textResp "schema" false))
      (errorAdapter ⟨"remote failure", ""⟩) failingHelpers
      ⟨"find_doctypes", none⟩).2.2.1 (by decide) (by decide) (by decide)
  · exact (c1_dispatch_order DOCUMENT_TOOL_NAMES SCHEMA_TOOL_NAMES HELPER_TOOL_NAMES
      (constHandler (textResp "doc" false)) (constHandler (textResp "schema" false))
      (errorAdapter ⟨"remote failure", ""⟩) failingHelpers
      ⟨"ping", none⟩).2.2.2.1 (by decide) (by decide) (by decide) rfl
  · exact (c1_dispatch_order DOCUMENT_TOOL_NAMES SCHEMA_TOOL_NAMES HELPER_TOOL_NAMES
      (constHandler (textResp "doc" false)) (constHandler (textResp "schema" false))
      (errorAdapter ⟨"remote failure", ""⟩) failingHelpers
      ⟨"create_blueprint", none⟩).2.2.2.2 (by decide) (by decide) (by decide) (by decide)

/-- C6 counterexample: the workflow group also owns a `list_blueprints`
tool, and with the filters argument unspecified its handler builds the
`RemoteCallSpec` with `filters: null` — not with the default
`{is_active: 1}` the claim asserts for every handler owning the tool. -/
theorem c6_counterexample :
    (handleWorkflowToolCall (okAdapter (Json.obj [("success", Json.bool true)]))
        ⟨"list_blueprints", none⟩).2 =
      [⟨"sentra_core.builder.tools.workflow_tools.list_blueprints_util",
        [("filters", some Json.null)]⟩] ∧
    some Json.null ≠ some (Json.obj [("is_active", Json.num 1)]) := by
  exact ⟨rfl, by decide⟩

/-- C6 amended: with the filters argument unspecified (or the arguments
object absent), the blueprint group's `list_blueprints` defaults the
filter to `{is_active: 1}`, while the workflow group's `list_blueprints`
passes `filters: null`, deferring any default to the remote utility. -/
theorem c6_list_blueprints_defaults (adapter : Adapter)
    (args : Option (List (String × Json)))
    (h : argVal args "filters" = none) :
    (handleBlueprintToolCall adapter ⟨"list_blueprints", args⟩).2 =
      [⟨"frappe.client.get_list",
        [("doctype", some (Json.str "BL Blueprint")),
         ("filters", some (Json.obj [("is_active", Json.num 1)])),
         ("fields", some (Json.arr [Json.str "name",
           Json.str "blueprint_description"]))]⟩] ∧
    (handleWorkflowToolCall adapter ⟨"list_blueprints", args⟩).2 =
      [⟨"sentra_core.builder.tools.workflow_tools.list_blueprints_util",
        [("filters", some Json.null)]⟩] := by
  constructor
  · rw [blueprintSnd]
    unfold blueprintBody
    simp only [h, jsOr,
      show ("list_blueprints" = "execute_blueprint") = False from by decide,
      if_false, if_true]
  · rw [workflowSnd]
    unfold workflowBody utilCallRespond
    simp only [h, jsOr,
      show ("list_blueprints" = "create_blueprint") = False from by decide,
      show ("list_blueprints" = "read_blueprint") = False from by decide,
      show ("list_blueprints" = "update_blueprint") = False from by decide,
      show ("list_blueprints" = "delete_blueprint") = False from by decide,
      if_false, if_true]

/-- C6 witness at the empty arguments object. -/
theorem c6_list_blueprints_defaults_witness :
    (handleBlueprintToolCall (okAdapter Json.null) ⟨"list_blueprints", some []⟩).2 =
      [⟨"frappe.client.get_list",
        [("doctype", some (Json.str "BL Blueprint")),
         ("filters", some (Json.obj [("is_active", Json.num 1)])),
         ("fields", some (Json.arr [Json.str "name",
           Json.str "blueprint_description"]))]⟩] :=
  (c6_list_blueprints_defaults (okAdapter Json.null) (some []) (by decide)).1

/-- C5 counterexample: `create_doctype` with a successful remote call
whose result `{}` carries no `success` flag.  The claim says `is_error`
should then be `false`; the handler computes `!result.success` =
`!undefined` = `true`. -/
theorem c5_counterexample :
    (handleDoctypeOperationsToolCall (okAdapter (Json.obj []))
        ⟨"create_doctype",
         some [("name", Json.str "X"),
               ("fields", Json.arr [Json.obj [("fieldname", Json.str "f")]])]⟩).1.isError
      = true := by
  rfl

/-- C5 amended: on a successful remote call (non-null result, so the
`success` property access does not raise), the doctype-structure and
workflow handlers set `is_error` to the negation of the JavaScript
truthiness of the result's `success` property — hence `true`, not `false`,
when the flag is absent or falsy — while the blueprint handler always sets
`is_error = false` on success, ignoring any embedded flag. -/
theorem c5_success_flag (name : String) (args : Option (List (String × Json)))
    (result : Json) (hnull : result ≠ Json.null) :
    ((handleDoctypeOperationsToolCall (okAdapter result) ⟨name, args⟩).2 ≠ [] →
      (handleDoctypeOperationsToolCall (okAdapter result) ⟨name, args⟩).1.isError
        = !truthyOpt (getPropT result "success")) ∧
    ((handleWorkflowToolCall (okAdapter result) ⟨name, args⟩).2 ≠ [] →
      (handleWorkflowToolCall (okAdapter result) ⟨name, args⟩).1.isError
        = !truthyOpt (getPropT result "success")) ∧
    ((handleBlueprintToolCall (okAdapter result) ⟨name, args⟩).2 ≠ [] →
      (handleBlueprintToolCall (okAdapter result) ⟨name, args⟩).1.isError = false) := by
  refine ⟨?_, ?_, ?_⟩
  · intro hcs
    rw [doctypeSnd] at hcs
    rw [doctypeFst_ok _ _ _ (doctypeBody_okAdapter name args result hnull hcs)]
    rfl
  · intro hcs
    rw [workflowSnd] at hcs
    rw [workflowFst_ok _ _ _ (workflowBody_okAdapter name args result hnull hcs)]
    rfl
  · intro hcs
    rw [blueprintSnd] at hcs
    obtain ⟨t, ht⟩ := blueprintBody_okAdapter name args result hcs
    rw [blueprintFst_ok _ _ _ ht]
    rfl

/-- C5 witness: a result with `success: false` yields `is_error = true`
for `create_doctype`. -/
theorem c5_success_flag_witness :
    (handleDoctypeOperationsToolCall (okAdapter (Json.obj [("success", Json.bool false)]))
        ⟨"create_doctype",
         some [("name", Json.str "X"),
               ("fields", Json.arr [Json.obj [("fieldname", Json.str "f")]])]⟩).1.isError
      = !truthyOpt (getPropT (Json.obj [("success", Json.bool false)]) "success") :=
  (c5_success_flag "create_doctype"
    (some [("name", Json.str "X"),
           ("fields", Json.arr [Json.obj [("fieldname", Json.str "f")]])])
    (Json.obj [("success", Json.bool false)]) (by decide)).1 (by decide)

/-- C4 counterexample: a successful `execute_blueprint` call prefixes the
pretty-printed result with prose, so `content[0].text` is not valid JSON
and cannot parse back to the remote result. -/
theorem c4_counterexample :
    jsonParse (headText (handleBlueprintToolCall
        (okAdapter (Json.obj [("status", Json.str "ok")]))
        ⟨"execute_blueprint",
         some [("blueprint_name", Json.str "bp"), ("doc_data", Json.obj [])]⟩).1)
      = none := by
  decide

theorem doctypeBody_nullResult (name : String) (args : Option (List (String × Json)))
    (hcs : (doctypeOperationsBody (okAdapter Json.null) ⟨name, args⟩).2 ≠ []) :
    (doctypeOperationsBody (okAdapter Json.null) ⟨name, args⟩).1 =
      Except.error ⟨"Cannot read properties of null (reading success)", ""⟩ := by
  revert hcs
  unfold doctypeOperationsBody utilCallRespond
  simp only [okAdapter, show getPropD Json.null "success" =
    Except.error ⟨"Cannot read properties of null (reading success)", ""⟩ from rfl]
  repeat' split
  all_goals intro hcs
  all_goals simp_all

theorem workflowBody_nullResult (name : String) (args : Option (List (String × Json)))
    (hcs : (workflowBody (okAdapter Json.null) ⟨name, args⟩).2 ≠ []) :
    (workflowBody (okAdapter Json.null) ⟨name, args⟩).1 =
      Except.error ⟨"Cannot read properties of null (reading success)", ""⟩ := by
  revert hcs
  unfold workflowBody utilCallRespond
  simp only [okAdapter, show getPropD Json.null "success" =
    Except.error ⟨"Cannot read properties of null (reading success)", ""⟩ from rfl]
  repeat' split
  all_goals intro hcs
  all_goals simp_all

/-- C4 amended: for the doctype-structure and workflow handlers the
round-trip `parse(format(result)) == result` holds exactly for successful
remote calls returning a non-null result — the single content block's text
is the pretty-printed result and parses back to it.  It fails for a
successful call returning JSON `null`: the `!result.success` access
throws, the catch answers error text, and that text is not valid JSON.
(And it fails for the blueprint and messaging tools, which prefix prose —
see the counterexample.) -/
theorem c4_roundtrip (name : String) (args : Option (List (String × Json)))
    (result : Json) (hnull : result ≠ Json.null) :
    ((handleDoctypeOperationsToolCall (okAdapter result) ⟨name, args⟩).2 ≠ [] →
      (handleDoctypeOperationsToolCall (okAdapter result) ⟨name, args⟩).1.content
        = [⟨"text", prettyStr result⟩] ∧
      jsonParse (headText
        (handleDoctypeOperationsToolCall (okAdapter result) ⟨name, args⟩).1)
        = some result) ∧
    ((handleWorkflowToolCall (okAdapter result) ⟨name, args⟩).2 ≠ [] →
      (handleWorkflowToolCall (okAdapter result) ⟨name, args⟩).1.content
        = [⟨"text", prettyStr result⟩] ∧
      jsonParse (headText (handleWorkflowToolCall (okAdapter result) ⟨name, args⟩).1)
        = some result) ∧
    ((handleDoctypeOperationsToolCall (okAdapter Json.null) ⟨name, args⟩).2 ≠ [] →
      (handleDoctypeOperationsToolCall (okAdapter Json.null) ⟨name, args⟩).1 =
        textResp ("Error: " ++ "Cannot read properties of null (reading success)"
          ++ "\n\nStack: " ++ "") true ∧
      jsonParse (headText
        (handleDoctypeOperationsToolCall (okAdapter Json.null) ⟨name, args⟩).1)
        = none) ∧
    ((handleWorkflowToolCall (okAdapter Json.null) ⟨name, args⟩).2 ≠ [] →
      (handleWorkflowToolCall (okAdapter Json.null) ⟨name, args⟩).1 =
        textResp ("Error: " ++ "Cannot read properties of null (reading success)"
          ++ "\n\nStack: " ++ "") true ∧
      jsonParse (headText
        (handleWorkflowToolCall (okAdapter Json.null) ⟨name, args⟩).1)
        = none) := by
  refine ⟨?_, ?_, ?_, ?_⟩
  · intro hcs
    rw [doctypeSnd] at hcs
    rw [doctypeFst_ok _ _ _ (doctypeBody_okAdapter name args result hnull hcs)]
    exact ⟨rfl, jsonParse_prettyStr result⟩
  · intro hcs
    rw [workflowSnd] at hcs
    rw [workflowFst_ok _ _ _ (workflowBody_okAdapter name args result hnull hcs)]
    exact ⟨rfl, jsonParse_prettyStr result⟩
  · intro hcs
    rw [doctypeSnd] at hcs
    have h1 := doctypeFst_error (okAdapter Json.null) ⟨name, args⟩
        ⟨"Cannot read properties of null (reading success)", ""⟩
        (doctypeBody_nullResult name args hcs)
    rw [h1]
    exact ⟨rfl, by decide⟩
  · intro hcs
    rw [workflowSnd] at hcs
    have h1 := workflowFst_error (okAdapter Json.null) ⟨name, args⟩
        ⟨"Cannot read properties of null (reading success)", ""⟩
        (workflowBody_nullResult name args hcs)
    rw [h1]
    exact ⟨rfl, by decide⟩

/-- C4 witness: concrete round trips through `delete_doctype` and
`get_available_events`, and the round-trip failure at a successful null
result. -/
theorem c4_roundtrip_witness :
    jsonParse (headText (handleDoctypeOperationsToolCall
        (okAdapter (Json.obj [("success", Json.bool true)]))
        ⟨"delete_doctype", some [("doctype_name", Json.str "X")]⟩).1)
      = some (Json.obj [("success", Json.bool true)]) ∧
    jsonParse (headText (handleWorkflowToolCall
        (okAdapter (Json.arr [Json.str "evt"]))
        ⟨"get_available_events", none⟩).1)
      = some (Json.arr [Json.str "evt"]) ∧
    jsonParse (headText (handleDoctypeOperationsToolCall (okAdapter Json.null)
        ⟨"delete_doctype", some [("doctype_name", Json.str "X")]⟩).1)
      = none ∧
    jsonParse (headText (handleWorkflowToolCall (okAdapter Json.null)
        ⟨"get_available_events", none⟩).1)
      = none :=
  ⟨((c4_roundtrip "delete_doctype" (some [("doctype_name", Json.str "X")])
      (Json.obj [("success", Json.bool true)]) (by decide)).1 (by decide)).2,
   ((c4_roundtrip "get_available_events" none
      (Json.arr [Json.str "evt"]) (by decide)).2.1 (by decide)).2,
   ((c4_roundtrip "delete_doctype" (some [("doctype_name", Json.str "X")])
      (Json.obj []) (by decide)).2.2.1 (by decide)).2,
   ((c4_roundtrip "get_available_events" none
      (Json.obj []) (by decide)).2.2.2 (by decide)).2⟩

theorem except_map_eq_ok {α β : Type} (f : α → β) (x : Except JsError α) (r : β)
    (h : x.map f = Except.ok r) : ∃ v, x = Except.ok v ∧ r = f v := by
  cases x with
  | ok a =>
      refine ⟨a, rfl, ?_⟩
      simpa [Except.map] using h.symm
  | error e => simp [Except.map] at h

/-- Every non-raising blueprint path answers with a single text block. -/
theorem blueprintBody_ok_shape (adapter : Adapter) (req : ToolCallRequest)
    (r : ToolCallResponse) (h : (blueprintBody adapter req).1 = Except.ok r) :
    ∃ t b, r = textResp t b := by
  unfold blueprintBody at h
  repeat' split at h
  all_goals try simp at h
  all_goals try (repeat' split at h)
  all_goals try simp at h
  all_goals exact ⟨_, _, h.symm⟩

/-- Every non-raising doctype-structure path answers with a single text
block. -/
theorem doctypeBody_ok_shape (adapter : Adapter) (req : ToolCallRequest)
    (r : ToolCallResponse) (h : (doctypeOperationsBody adapter req).1 = Except.ok r) :
    ∃ t b, r = textResp t b := by
  unfold doctypeOperationsBody utilCallRespond at h
  repeat' split at h
  all_goals try simp at h
  all_goals try (repeat' split at h)
  all_goals try simp at h
  all_goals exact ⟨_, _, h.symm⟩

/-- Every non-raising workflow path answers with a single text block. -/
theorem workflowBody_ok_shape (adapter : Adapter) (req : ToolCallRequest)
    (r : ToolCallResponse) (h : (workflowBody adapter req).1 = Except.ok r) :
    ∃ t b, r = textResp t b := by
  unfold workflowBody utilCallRespond at h
  repeat' split at h
  all_goals try simp at h
  all_goals try (repeat' split at h)
  all_goals try simp at h
  all_goals exact ⟨_, _, h.symm⟩

/-- Every non-raising helper path answers with a single text block. -/
theorem helperBody_ok_shape (adapter : Adapter) (hb : HelperBehavior)
    (req : ToolCallRequest) (args : List (String × Json))
    (r : ToolCallResponse) (h : (helperBody adapter hb req args).1 = Except.ok r) :
    ∃ t b, r = textResp t b := by
  unfold helperBody at h
  by_cases h1 : req.name = "find_doctypes"
  · rw [if_pos h1] at h
    repeat' split at h
    all_goals try simp at h
    all_goals try (repeat' split at h)
    all_goals try simp at h
    all_goals first
      | exact ⟨_, _, h.symm⟩
      | exact ⟨_, _, h⟩
      | (obtain ⟨v, hv, hr⟩ := except_map_eq_ok _ _ _ h; exact ⟨_, _, hr⟩)
      | (obtain ⟨v, hv, hr⟩ := h; exact ⟨_, _, hr.symm⟩)
  rw [if_neg h1] at h
  by_cases h2 : req.name = "get_module_list"
  · rw [if_pos h2] at h
    repeat' split at h
    all_goals try simp at h
    all_goals try (repeat' split at h)
    all_goals try simp at h
    all_goals first
      | exact ⟨_, _, h.symm⟩
      | exact ⟨_, _, h⟩
      | (obtain ⟨v, hv, hr⟩ := except_map_eq_ok _ _ _ h; exact ⟨_, _, hr⟩)
      | (obtain ⟨v, hv, hr⟩ := h; exact ⟨_, _, hr.symm⟩)
  rw [if_neg h2] at h
  by_cases h3 : req.name = "get_doctypes_in_module"
  · rw [if_pos h3] at h
    repeat' split at h
    all_goals try simp at h
    all_goals try (repeat' split at h)
    all_goals try simp at h
    all_goals first
      | exact ⟨_, _, h.symm⟩
      | exact ⟨_, _, h⟩
      | (obtain ⟨v, hv, hr⟩ := except_map_eq_ok _ _ _ h; exact ⟨_, _, hr⟩)
      | (obtain ⟨v, hv, hr⟩ := h; exact ⟨_, _, hr.symm⟩)
  rw [if_neg h3] at h
  by_cases h4 : req.name = "check_doctype_exists"
  · rw [if_pos h4] at h
    repeat' split at h
    all_goals try simp at h
    all_goals try (repeat' split at h)
    all_goals try simp at h
    all_goals first
      | exact ⟨_, _, h.symm⟩
      | exact ⟨_, _, h⟩
      | (obtain ⟨v, hv, hr⟩ := except_map_eq_ok _ _ _ h; exact ⟨_, _, hr⟩)
      | (obtain ⟨v, hv, hr⟩ := h; exact ⟨_, _, hr.symm⟩)
  rw [if_neg h4] at h
  by_cases h5 : req.name = "check_document_exists"
  · rw [if_pos h5] at h
    repeat' split at h
    all_goals try simp at h
    all_goals try (repeat' split at h)
    all_goals try simp at h
    all_goals first
      | exact ⟨_, _, h.symm⟩
      | exact ⟨_, _, h⟩
      | (obtain ⟨v, hv, hr⟩ := except_map_eq_ok _ _ _ h; exact ⟨_, _, hr⟩)
      | (obtain ⟨v, hv, hr⟩ := h; exact ⟨_, _, hr.symm⟩)
  rw [if_neg h5] at h
  by_cases h6 : req.name = "get_document_count"
  · rw [if_pos h6] at h
    repeat' split at h
    all_goals try simp at h
    all_goals try (repeat' split at h)
    all_goals try simp at h
    all_goals first
      | exact ⟨_, _, h.symm⟩
      | exact ⟨_, _, h⟩
      | (obtain ⟨v, hv, hr⟩ := except_map_eq_ok _ _ _ h; exact ⟨_, _, hr⟩)
      | (obtain ⟨v, hv, hr⟩ := h; exact ⟨_, _, hr.symm⟩)
  rw [if_neg h6] at h
  by_cases h7 : req.name = "get_naming_info"
  · rw [if_pos h7] at h
    repeat' split at h
    all_goals try simp at h
    all_goals try (repeat' split at h)
    all_goals try simp at h
    all_goals first
      | exact ⟨_, _, h.symm⟩
      | exact ⟨_, _, h⟩
      | (obtain ⟨v, hv, hr⟩ := except_map_eq_ok _ _ _ h; exact ⟨_, _, hr⟩)
      | (obtain ⟨v, hv, hr⟩ := h; exact ⟨_, _, hr.symm⟩)
  rw [if_neg h7] at h
  by_cases h8 : req.name = "get_required_fields"
  · rw [if_pos h8] at h
    repeat' split at h
    all_goals try simp at h
    all_goals try (repeat' split at h)
    all_goals try simp at h
    all_goals first
      | exact ⟨_, _, h.symm⟩
      | exact ⟨_, _, h⟩
      | (obtain ⟨v, hv, hr⟩ := except_map_eq_ok _ _ _ h; exact ⟨_, _, hr⟩)
      | (obtain ⟨v, hv, hr⟩ := h; exact ⟨_, _, hr.symm⟩)
  rw [if_neg h8] at h
  by_cases h9 : req.name = "get_api_instructions"
  · rw [if_pos h9] at h
    repeat' split at h
    all_goals try simp at h
    all_goals try (repeat' split at h)
    all_goals try simp at h
    all_goals first
      | exact ⟨_, _, h.symm⟩
      | exact ⟨_, _, h⟩
      | (obtain ⟨v, hv, hr⟩ := except_map_eq_ok _ _ _ h; exact ⟨_, _, hr⟩)
      | (obtain ⟨v, hv, hr⟩ := h; exact ⟨_, _, hr.symm⟩)
  rw [if_neg h9] at h
  by_cases h10 : req.name = "send_whatsapp_message"
  · rw [if_pos h10] at h
    repeat' split at h
    all_goals try simp at h
    all_goals try (repeat' split at h)
    all_goals try simp at h
    all_goals first
      | exact ⟨_, _, h.symm⟩
      | exact ⟨_, _, h⟩
      | (obtain ⟨v, hv, hr⟩ := except_map_eq_ok _ _ _ h; exact ⟨_, _, hr⟩)
      | (obtain ⟨v, hv, hr⟩ := h; exact ⟨_, _, hr.symm⟩)
  rw [if_neg h10] at h
  by_cases h11 : req.name = "send_instagram_message"
  · rw [if_pos h11] at h
    repeat' split at h
    all_goals try simp at h
    all_goals try (repeat' split at h)
    all_goals try simp at h
    all_goals first
      | exact ⟨_, _, h.symm⟩
      | exact ⟨_, _, h⟩
      | (obtain ⟨v, hv, hr⟩ := except_map_eq_ok _ _ _ h; exact ⟨_, _, hr⟩)
      | (obtain ⟨v, hv, hr⟩ := h; exact ⟨_, _, hr.symm⟩)
  rw [if_neg h11] at h
  simp at h
  exact ⟨_, _, h.symm⟩

/-- With an always-raising adapter, any blueprint branch that records a
call raises the adapter error. -/
theorem blueprintBody_errorAdapter (e : JsError) (req : ToolCallRequest)
    (hcs : (blueprintBody (errorAdapter e) req).2 ≠ []) :
    (blueprintBody (errorAdapter e) req).1 = Except.error e := by
  revert hcs
  unfold blueprintBody
  simp only [errorAdapter]
  repeat' split
  all_goals intro hcs
  all_goals simp_all

/-- With an always-raising adapter, any doctype-structure branch that
records a call raises the adapter error. -/
theorem doctypeBody_errorAdapter (e : JsError) (req : ToolCallRequest)
    (hcs : (doctypeOperationsBody (errorAdapter e) req).2 ≠ []) :
    (doctypeOperationsBody (errorAdapter e) req).1 = Except.error e := by
  revert hcs
  unfold doctypeOperationsBody utilCallRespond
  simp only [errorAdapter]
  repeat' split
  all_goals intro hcs
  all_goals simp_all

/-- With an always-raising adapter, any workflow branch that records a
call raises the adapter error. -/
theorem workflowBody_errorAdapter (e : JsError) (req : ToolCallRequest)
    (hcs : (workflowBody (errorAdapter e) req).2 ≠ []) :
    (workflowBody (errorAdapter e) req).1 = Except.error e := by
  revert hcs
  unfold workflowBody utilCallRespond
  simp only [errorAdapter]
  repeat' split
  all_goals intro hcs
  all_goals simp_all

/-- With an always-raising adapter, any helper branch that records a call
(the messaging tools) catches the failure itself and flags the error with
its message embedded. -/
theorem helperBody_errorAdapter (e : JsError) (hb : HelperBehavior)
    (req : ToolCallRequest) (args : List (String × Json))
    (hcs : (helperBody (errorAdapter e) hb req args).2 ≠ []) :
    ∃ pre, (helperBody (errorAdapter e) hb req args).1 =
      Except.ok (textResp (pre ++ e.message) true) := by
  revert hcs
  unfold helperBody
  simp only [errorAdapter]
  by_cases h1 : req.name = "find_doctypes"
  · rw [if_pos h1]
    repeat' split
    all_goals intro hcs
    all_goals simp_all
    all_goals exact ⟨_, rfl⟩
  rw [if_neg h1]
  by_cases h2 : req.name = "get_module_list"
  · rw [if_pos h2]
    repeat' split
    all_goals intro hcs
    all_goals simp_all
    all_goals exact ⟨_, rfl⟩
  rw [if_neg h2]
  by_cases h3 : req.name = "get_doctypes_in_module"
  · rw [if_pos h3]
    repeat' split
    all_goals intro hcs
    all_goals simp_all
    all_goals exact ⟨_, rfl⟩
  rw [if_neg h3]
  by_cases h4 : req.name = "check_doctype_exists"
  · rw [if_pos h4]
    repeat' split
    all_goals intro hcs
    all_goals simp_all
    all_goals exact ⟨_, rfl⟩
  rw [if_neg h4]
  by_cases h5 : req.name = "check_document_exists"
  · rw [if_pos h5]
    repeat' split
    all_goals intro hcs
    all_goals simp_all
    all_goals exact ⟨_, rfl⟩
  rw [if_neg h5]
  by_cases h6 : req.name = "get_document_count"
  · rw [if_pos h6]
    repeat' split
    all_goals intro hcs
    all_goals simp_all
    all_goals exact ⟨_, rfl⟩
  rw [if_neg h6]
  by_cases h7 : req.name = "get_naming_info"
  · rw [if_pos h7]
    repeat' split
    all_goals intro hcs
    all_goals simp_all
    all_goals exact ⟨_, rfl⟩
  rw [if_neg h7]
  by_cases h8 : req.name = "get_required_fields"
  · rw [if_pos h8]
    repeat' split
    all_goals intro hcs
    all_goals simp_all
    all_goals exact ⟨_, rfl⟩
  rw [if_neg h8]
  by_cases h9 : req.name = "get_api_instructions"
  · rw [if_pos h9]
    repeat' split
    all_goals intro hcs
    all_goals simp_all
    all_goals exact ⟨_, rfl⟩
  rw [if_neg h9]
  by_cases h10 : req.name = "send_whatsapp_message"
  · rw [if_pos h10]
    repeat' split
    all_goals intro hcs
    all_goals simp_all
    all_goals exact ⟨_, rfl⟩
  rw [if_neg h10]
  by_cases h11 : req.name = "send_instagram_message"
  · rw [if_pos h11]
    repeat' split
    all_goals intro hcs
    all_goals simp_all
    all_goals exact ⟨_, rfl⟩
  rw [if_neg h11]
  intro hcs
  simp_all

/-- C2: every group handler answers each request with exactly one response
holding a single text content block, for every adapter and helper
behaviour — no path raises past the handler boundary; and when the remote
call adapter raises on an issued call, the answer flags `is_error = true`
and embeds the raised error's message in the text. -/
theorem c2_handler_totality (adapter : Adapter) (hb : HelperBehavior)
    (req : ToolCallRequest) (e : JsError) :
    (∃ t b, (handleBlueprintToolCall adapter req).1 = textResp t b) ∧
    (∃ t b, (handleDoctypeOperationsToolCall adapter req).1 = textResp t b) ∧
    (∃ t b, (handleWorkflowToolCall adapter req).1 = textResp t b) ∧
    (∃ t b, (handleHelperToolCall adapter hb req).1 = textResp t b) ∧
    ((handleBlueprintToolCall (errorAdapter e) req).2 ≠ [] →
      (handleBlueprintToolCall (errorAdapter e) req).1.isError = true ∧
      strContainsSub (headText (handleBlueprintToolCall (errorAdapter e) req).1)
        e.message = true) ∧
    ((handleDoctypeOperationsToolCall (errorAdapter e) req).2 ≠ [] →
      (handleDoctypeOperationsToolCall (errorAdapter e) req).1.isError = true ∧
      strContainsSub (headText (handleDoctypeOperationsToolCall (errorAdapter e) req).1)
        e.message = true) ∧
    ((handleWorkflowToolCall (errorAdapter e) req).2 ≠ [] →
      (handleWorkflowToolCall (errorAdapter e) req).1.isError = true ∧
      strContainsSub (headText (handleWorkflowToolCall (errorAdapter e) req).1)
        e.message = true) ∧
    ((handleHelperToolCall (errorAdapter e) hb req).2 ≠ [] →
      (handleHelperToolCall (errorAdapter e) hb req).1.isError = true ∧
      strContainsSub (headText (handleHelperToolCall (errorAdapter e) hb req).1)
        e.message = true) := by
  refine ⟨?_, ?_, ?_, ?_, ?_, ?_, ?_, ?_⟩
  · rcases h : blueprintBody adapter req with ⟨b, cs⟩
    cases b with
    | ok r =>
        obtain ⟨t, be, hr⟩ := blueprintBody_ok_shape adapter req r (by rw [h])
        exact ⟨t, be, by rw [blueprintFst_ok adapter req r (by rw [h]), hr]⟩
    | error e' => exact ⟨_, _, blueprintFst_error adapter req e' (by rw [h])⟩
  · rcases h : doctypeOperationsBody adapter req with ⟨b, cs⟩
    cases b with
    | ok r =>
        obtain ⟨t, be, hr⟩ := doctypeBody_ok_shape adapter req r (by rw [h])
        exact ⟨t, be, by rw [doctypeFst_ok adapter req r (by rw [h]), hr]⟩
    | error e' => exact ⟨_, _, doctypeFst_error adapter req e' (by rw [h])⟩
  · rcases h : workflowBody adapter req with ⟨b, cs⟩
    cases b with
    | ok r =>
        obtain ⟨t, be, hr⟩ := workflowBody_ok_shape adapter req r (by rw [h])
        exact ⟨t, be, by rw [workflowFst_ok adapter req r (by rw [h]), hr]⟩
    | error e' => exact ⟨_, _, workflowFst_error adapter req e' (by rw [h])⟩
  · cases ha : req.arguments with
    | none =>
        refine ⟨"Missing arguments for tool call", true, ?_⟩
        unfold handleHelperToolCall
        rw [ha]
    | some args =>
        rcases h : helperBody adapter hb req args with ⟨b, cs⟩
        cases b with
        | ok r =>
            obtain ⟨t, be, hr⟩ := helperBody_ok_shape adapter hb req args r (by rw [h])
            exact ⟨t, be, by rw [helperFst_ok adapter hb req args ha r (by rw [h]), hr]⟩
        | error e' =>
            exact ⟨_, _, helperFst_error adapter hb req args ha e' (by rw [h])⟩
  · intro hcs
    rw [blueprintSnd] at hcs
    rw [blueprintFst_error _ _ _ (blueprintBody_errorAdapter e req hcs)]
    exact ⟨rfl, strContainsSub_right "Error: " e.message⟩
  · intro hcs
    rw [doctypeSnd] at hcs
    rw [doctypeFst_error _ _ _ (doctypeBody_errorAdapter e req hcs)]
    refine ⟨rfl, ?_⟩
    simp only [headText, textResp, strContainsSub, String.data_append,
      List.append_assoc]
    exact occursIn_infix _ _ _
  · intro hcs
    rw [workflowSnd] at hcs
    rw [workflowFst_error _ _ _ (workflowBody_errorAdapter e req hcs)]
    refine ⟨rfl, ?_⟩
    simp only [headText, textResp, strContainsSub, String.data_append,
      List.append_assoc]
    exact occursIn_infix _ _ _
  · intro hcs
    cases ha : req.arguments with
    | none =>
        unfold handleHelperToolCall at hcs
        rw [ha] at hcs
        exact absurd rfl hcs
    | some args =>
        rw [helperSnd (errorAdapter e) hb req args ha] at hcs
        obtain ⟨pre, h1⟩ := helperBody_errorAdapter e hb req args hcs
        rw [helperFst_ok (errorAdapter e) hb req args ha _ h1]
        exact ⟨rfl, strContainsSub_right pre e.message⟩

/-- C2 witness: concrete raising-adapter calls across all four groups. -/
theorem c2_handler_totality_witness :
    ((handleBlueprintToolCall (errorAdapter ⟨"boom", "st"⟩)
        ⟨"list_blueprints", none⟩).1.isError = true ∧
      strContainsSub (headText (handleBlueprintToolCall (errorAdapter ⟨"boom", "st"⟩)
        ⟨"list_blueprints", none⟩).1) "boom" = true) ∧
    ((handleDoctypeOperationsToolCall (errorAdapter ⟨"boom", "st"⟩)
        ⟨"delete_doctype", some [("doctype_name", Json.str "X")]⟩).1.isError = true ∧
      strContainsSub (headText (handleDoctypeOperationsToolCall
        (errorAdapter ⟨"boom", "st"⟩)
        ⟨"delete_doctype", some [("doctype_name", Json.str "X")]⟩).1) "boom" = true) ∧
    ((handleWorkflowToolCall (errorAdapter ⟨"boom", "st"⟩)
        ⟨"get_available_events", none⟩).1.isError = true ∧
      strContainsSub (headText (handleWorkflowToolCall (errorAdapter ⟨"boom", "st"⟩)
        ⟨"get_available_events", none⟩).1) "boom" = true) ∧
    ((handleHelperToolCall (errorAdapter ⟨"boom", "st"⟩) failingHelpers
        ⟨"send_whatsapp_message",
         some [("to", Json.str "u"), ("message", Json.str "m")]⟩).1.isError = true ∧
      strContainsSub (headText (handleHelperToolCall (errorAdapter ⟨"boom", "st"⟩)
        failingHelpers
        ⟨"send_whatsapp_message",
         some [("to", Json.str "u"), ("message", Json.str "m")]⟩).1) "boom" = true) :=
  ⟨(c2_handler_totality (errorAdapter ⟨"boom", "st"⟩) failingHelpers
      ⟨"list_blueprints", none⟩ ⟨"boom", "st"⟩).2.2.2.2.1 (by decide),
   (c2_handler_totality (errorAdapter ⟨"boom", "st"⟩) failingHelpers
      ⟨"delete_doctype", some [("doctype_name", Json.str "X")]⟩
      ⟨"boom", "st"⟩).2.2.2.2.2.1 (by decide),
   (c2_handler_totality (errorAdapter ⟨"boom", "st"⟩) failingHelpers
      ⟨"get_available_events", none⟩ ⟨"boom", "st"⟩).2.2.2.2.2.2.1 (by decide),
   (c2_handler_totality (errorAdapter ⟨"boom", "st"⟩) failingHelpers
      ⟨"send_whatsapp_message",
       some [("to", Json.str "u"), ("message", Json.str "m")]⟩
      ⟨"boom", "st"⟩).2.2.2.2.2.2.2 (by decide)⟩


/-- Convenience: argument access through a present arguments object. -/
theorem argVal_some (a : List (String × Json)) (k : String) :
    argVal (some a) k = lookupArg a k := rfl

/-- The arguments each doctype-structure tool checks before calling out. -/
def doctypeRequiredArgs : String → List String
  | "create_doctype" => ["name", "fields"]
  | "create_child_table" => ["parent_doctype", "child_doctype_name", "child_fields"]
  | "add_fields_to_doctype" => ["doctype_name", "fields"]
  | "delete_doctype" => ["doctype_name"]
  | _ => []

/-- The arguments each workflow tool checks before calling out. -/
def workflowRequiredArgs : String → List String
  | "create_blueprint" => ["name", "triggers", "actions"]
  | "read_blueprint" => ["blueprint_id"]
  | "update_blueprint" => ["blueprint_id"]
  | "delete_blueprint" => ["blueprint_id"]
  | "validate_blueprint" => ["blueprint_json"]
  | _ => []

/-- The arguments each helper tool checks before acting. -/
def helperRequiredArgs : String → List String
  | "get_doctypes_in_module" => ["module"]
  | "check_doctype_exists" => ["doctype"]
  | "check_document_exists" => ["doctype", "name"]
  | "get_document_count" => ["doctype"]
  | "get_naming_info" => ["doctype"]
  | "get_required_fields" => ["doctype"]
  | "get_api_instructions" => ["category", "operation"]
  | "send_whatsapp_message" => ["to", "message"]
  | "send_instagram_message" => ["to", "message"]
  | _ => []

/-- C3 counterexample: `execute_blueprint` declares `blueprint_name`
required, yet with an arguments object that omits it the blueprint handler
performs no check and invokes the remote adapter anyway, passing
`undefined` parameters — the claimed "zero remote calls" fails. -/
theorem c3_counterexample :
    (handleBlueprintToolCall (errorAdapter ⟨"x", ""⟩)
        ⟨"execute_blueprint", some []⟩).2 =
      [⟨"sentra_core.bl_engine.core.blueprint_executor.execute_blueprint_manually",
        [("blueprint_name", none), ("doc", none)]⟩] := by
  decide

/-- C3 amended: the doctype-structure, workflow, and helper groups do
guard their required arguments — a missing (untruthy) required argument
yields `is_error = true`, a message naming the field, and no remote call —
but the blueprint group does not (see the counterexample), and the helper
group's absent-arguments response does not name a field. -/
theorem c3_missing_required (adapter : Adapter) (hb : HelperBehavior)
    (nm k : String) (args : List (String × Json)) :
    (k ∈ doctypeRequiredArgs nm → truthyOpt (lookupArg args k) = false →
      (handleDoctypeOperationsToolCall adapter ⟨nm, some args⟩).1.isError = true ∧
      strContainsSub
        (headText (handleDoctypeOperationsToolCall adapter ⟨nm, some args⟩).1) k
        = true ∧
      (handleDoctypeOperationsToolCall adapter ⟨nm, some args⟩).2 = []) ∧
    (k ∈ workflowRequiredArgs nm → truthyOpt (lookupArg args k) = false →
      (handleWorkflowToolCall adapter ⟨nm, some args⟩).1.isError = true ∧
      strContainsSub
        (headText (handleWorkflowToolCall adapter ⟨nm, some args⟩).1) k = true ∧
      (handleWorkflowToolCall adapter ⟨nm, some args⟩).2 = []) ∧
    (k ∈ helperRequiredArgs nm → truthyOpt (lookupArg args k) = false →
      (handleHelperToolCall adapter hb ⟨nm, some args⟩).1.isError = true ∧
      strContainsSub
        (headText (handleHelperToolCall adapter hb ⟨nm, some args⟩).1) k = true ∧
      (handleHelperToolCall adapter hb ⟨nm, some args⟩).2 = []) := by
  refine ⟨?_, ?_, ?_⟩
  · intro hmem htr
    by_cases hc1 : nm = "create_doctype"
    · subst hc1
      simp [doctypeRequiredArgs] at hmem
      rcases hmem with rfl | rfl
      · have hbody : doctypeOperationsBody adapter ⟨"create_doctype", some args⟩ =
            (Except.error ⟨"Missing required arguments: name and fields are required", ""⟩, []) := by
          unfold doctypeOperationsBody
          simp +decide [argVal_some, htr]
        have he := doctypeFst_error adapter ⟨"create_doctype", some args⟩
            ⟨"Missing required arguments: name and fields are required", ""⟩ (by rw [hbody])
        exact ⟨by rw [he]; rfl, by rw [he]; decide, by rw [doctypeSnd, hbody]⟩
      · have hbody : doctypeOperationsBody adapter ⟨"create_doctype", some args⟩ =
            (Except.error ⟨"Missing required arguments: name and fields are required", ""⟩, []) := by
          unfold doctypeOperationsBody
          simp +decide [argVal_some, htr]
        have he := doctypeFst_error adapter ⟨"create_doctype", some args⟩
            ⟨"Missing required arguments: name and fields are required", ""⟩ (by rw [hbody])
        exact ⟨by rw [he]; rfl, by rw [he]; decide, by rw [doctypeSnd, hbody]⟩
    by_cases hc2 : nm = "create_child_table"
    · subst hc2
      simp [doctypeRequiredArgs] at hmem
      rcases hmem with rfl | rfl | rfl
      · have hbody : doctypeOperationsBody adapter ⟨"create_child_table", some args⟩ =
            (Except.error ⟨"Missing required arguments: parent_doctype, child_doctype_name, and child_fields are required", ""⟩, []) := by
          unfold doctypeOperationsBody
          simp +decide [argVal_some, htr]
        have he := doctypeFst_error adapter ⟨"create_child_table", some args⟩
            ⟨"Missing required arguments: parent_doctype, child_doctype_name, and child_fields are required", ""⟩ (by rw [hbody])
        exact ⟨by rw [he]; rfl, by rw [he]; decide, by rw [doctypeSnd, hbody]⟩
      · have hbody : doctypeOperationsBody adapter ⟨"create_child_table", some args⟩ =
            (Except.error ⟨"Missing required arguments: parent_doctype, child_doctype_name, and child_fields are required", ""⟩, []) := by
          unfold doctypeOperationsBody
          simp +decide [argVal_some, htr]
        have he := doctypeFst_error adapter ⟨"create_child_table", some args⟩
            ⟨"Missing required arguments: parent_doctype, child_doctype_name, and child_fields are required", ""⟩ (by rw [hbody])
        exact ⟨by rw [he]; rfl, by rw [he]; decide, by rw [doctypeSnd, hbody]⟩
      · have hbody : doctypeOperationsBody adapter ⟨"create_child_table", some args⟩ =
            (Except.error ⟨"Missing required arguments: parent_doctype, child_doctype_name, and child_fields are required", ""⟩, []) := by
          unfold doctypeOperationsBody
          simp +decide [argVal_some, htr]
        have he := doctypeFst_error adapter ⟨"create_child_table", some args⟩
            ⟨"Missing required arguments: parent_doctype, child_doctype_name, and child_fields are required", ""⟩ (by rw [hbody])
        exact ⟨by rw [he]; rfl, by rw [he]; decide, by rw [doctypeSnd, hbody]⟩
    by_cases hc3 : nm = "add_fields_to_doctype"
    · subst hc3
      simp [doctypeRequiredArgs] at hmem
      rcases hmem with rfl | rfl
      · have hbody : doctypeOperationsBody adapter ⟨"add_fields_to_doctype", some args⟩ =
            (Except.error ⟨"Missing required arguments: doctype_name and fields are required", ""⟩, []) := by
          unfold doctypeOperationsBody
          simp +decide [argVal_some, htr]
        have he := doctypeFst_error adapter ⟨"add_fields_to_doctype", some args⟩
            ⟨"Missing required arguments: doctype_name and fields are required", ""⟩ (by rw [hbody])
        exact ⟨by rw [he]; rfl, by rw [he]; decide, by rw [doctypeSnd, hbody]⟩
      · have hbody : doctypeOperationsBody adapter ⟨"add_fields_to_doctype", some args⟩ =
            (Except.error ⟨"Missing required arguments: doctype_name and fields are required", ""⟩, []) := by
          unfold doctypeOperationsBody
          simp +decide [argVal_some, htr]
        have he := doctypeFst_error adapter ⟨"add_fields_to_doctype", some args⟩
            ⟨"Missing required arguments: doctype_name and fields are required", ""⟩ (by rw [hbody])
        exact ⟨by rw [he]; rfl, by rw [he]; decide, by rw [doctypeSnd, hbody]⟩
    by_cases hc4 : nm = "delete_doctype"
    · subst hc4
      simp [doctypeRequiredArgs] at hmem
      subst hmem
      have hbody : doctypeOperationsBody adapter ⟨"delete_doctype", some args⟩ =
          (Except.error ⟨"Missing required argument: doctype_name", ""⟩, []) := by
        unfold doctypeOperationsBody
        simp +decide [argVal_some, htr]
      have he := doctypeFst_error adapter ⟨"delete_doctype", some args⟩
          ⟨"Missing required argument: doctype_name", ""⟩ (by rw [hbody])
      exact ⟨by rw [he]; rfl, by rw [he]; decide, by rw [doctypeSnd, hbody]⟩
    simp [doctypeRequiredArgs, hc1, hc2, hc3, hc4] at hmem
  · intro hmem htr
    by_cases hc1 : nm = "create_blueprint"
    · subst hc1
      simp [workflowRequiredArgs] at hmem
      rcases hmem with rfl | rfl | rfl
      · have hbody : workflowBody adapter ⟨"create_blueprint", some args⟩ =
            (Except.error ⟨"Missing required arguments: name, triggers, and actions are required", ""⟩, []) := by
          unfold workflowBody
          simp +decide [argVal_some, htr]
        have he := workflowFst_error adapter ⟨"create_blueprint", some args⟩
            ⟨"Missing required arguments: name, triggers, and actions are required", ""⟩ (by rw [hbody])
        exact ⟨by rw [he]; rfl, by rw [he]; decide, by rw [workflowSnd, hbody]⟩
      · have hbody : workflowBody adapter ⟨"create_blueprint", some args⟩ =
            (Except.error ⟨"Missing required arguments: name, triggers, and actions are required", ""⟩, []) := by
          unfold workflowBody
          simp +decide [argVal_some, htr]
        have he := workflowFst_error adapter ⟨"create_blueprint", some args⟩
            ⟨"Missing required arguments: name, triggers, and actions are required", ""⟩ (by rw [hbody])
        exact ⟨by rw [he]; rfl, by rw [he]; decide, by rw [workflowSnd, hbody]⟩
      · have hbody : workflowBody adapter ⟨"create_blueprint", some args⟩ =
            (Except.error ⟨"Missing required arguments: name, triggers, and actions are required", ""⟩, []) := by
          unfold workflowBody
          simp +decide [argVal_some, htr]
        have he := workflowFst_error adapter ⟨"create_blueprint", some args⟩
            ⟨"Missing required arguments: name, triggers, and actions are required", ""⟩ (by rw [hbody])
        exact ⟨by rw [he]; rfl, by rw [he]; decide, by rw [workflowSnd, hbody]⟩
    by_cases hc2 : nm = "read_blueprint"
    · subst hc2
      simp [workflowRequiredArgs] at hmem
      subst hmem
      have hbody : workflowBody adapter ⟨"read_blueprint", some args⟩ =
          (Except.error ⟨"Missing required argument: blueprint_id", ""⟩, []) := by
        unfold workflowBody
        simp +decide [argVal_some, htr]
      have he := workflowFst_error adapter ⟨"read_blueprint", some args⟩
          ⟨"Missing required argument: blueprint_id", ""⟩ (by rw [hbody])
      exact ⟨by rw [he]; rfl, by rw [he]; decide, by rw [workflowSnd, hbody]⟩
    by_cases hc3 : nm = "update_blueprint"
    · subst hc3
      simp [workflowRequiredArgs] at hmem
      subst hmem
      have hbody : workflowBody adapter ⟨"update_blueprint", some args⟩ =
          (Except.error ⟨"Missing required argument: blueprint_id", ""⟩, []) := by
        unfold workflowBody
        simp +decide [argVal_some, htr]
      have he := workflowFst_error adapter ⟨"update_blueprint", some args⟩
          ⟨"Missing required argument: blueprint_id", ""⟩ (by rw [hbody])
      exact ⟨by rw [he]; rfl, by rw [he]; decide, by rw [workflowSnd, hbody]⟩
    by_cases hc4 : nm = "delete_blueprint"
    · subst hc4
      simp [workflowRequiredArgs] at hmem
      subst hmem
      have hbody : workflowBody adapter ⟨"delete_blueprint", some args⟩ =
          (Except.error ⟨"Missing required argument: blueprint_id", ""⟩, []) := by
        unfold workflowBody
        simp +decide [argVal_some, htr]
      have he := workflowFst_error adapter ⟨"delete_blueprint", some args⟩
          ⟨"Missing required argument: blueprint_id", ""⟩ (by rw [hbody])
      exact ⟨by rw [he]; rfl, by rw [he]; decide, by rw [workflowSnd, hbody]⟩
    by_cases hc5 : nm = "validate_blueprint"
    · subst hc5
      simp [workflowRequiredArgs] at hmem
      subst hmem
      have hbody : workflowBody adapter ⟨"validate_blueprint", some args⟩ =
          (Except.error ⟨"Missing required argument: blueprint_json", ""⟩, []) := by
        unfold workflowBody
        simp +decide [argVal_some, htr]
      have he := workflowFst_error adapter ⟨"validate_blueprint", some args⟩
          ⟨"Missing required argument: blueprint_json", ""⟩ (by rw [hbody])
      exact ⟨by rw [he]; rfl, by rw [he]; decide, by rw [workflowSnd, hbody]⟩
    simp [workflowRequiredArgs, hc1, hc2, hc3, hc4, hc5] at hmem
  · intro hmem htr
    by_cases hc1 : nm = "get_doctypes_in_module"
    · subst hc1
      simp [helperRequiredArgs] at hmem
      subst hmem
      have hbody : helperBody adapter hb ⟨"get_doctypes_in_module", some args⟩ args =
          (Except.ok (textResp "Missing required parameter: module" true), []) := by
        unfold helperBody
        simp +decide [htr]
      have he := helperFst_ok adapter hb ⟨"get_doctypes_in_module", some args⟩ args rfl
          (textResp "Missing required parameter: module" true) (by rw [hbody])
      exact ⟨by rw [he]; rfl, by rw [he]; decide,
        by rw [helperSnd adapter hb ⟨"get_doctypes_in_module", some args⟩ args rfl, hbody]⟩
    by_cases hc2 : nm = "check_doctype_exists"
    · subst hc2
      simp [helperRequiredArgs] at hmem
      subst hmem
      have hbody : helperBody adapter hb ⟨"check_doctype_exists", some args⟩ args =
          (Except.ok (textResp "Missing required parameter: doctype" true), []) := by
        unfold helperBody
        simp +decide [htr]
      have he := helperFst_ok adapter hb ⟨"check_doctype_exists", some args⟩ args rfl
          (textResp "Missing required parameter: doctype" true) (by rw [hbody])
      exact ⟨by rw [he]; rfl, by rw [he]; decide,
        by rw [helperSnd adapter hb ⟨"check_doctype_exists", some args⟩ args rfl, hbody]⟩
    by_cases hc3 : nm = "check_document_exists"
    · subst hc3
      simp [helperRequiredArgs] at hmem
      rcases hmem with rfl | rfl
      · have hbody : helperBody adapter hb ⟨"check_document_exists", some args⟩ args =
            (Except.ok (textResp "Missing required parameters: doctype and name" true), []) := by
          unfold helperBody
          simp +decide [htr]
        have he := helperFst_ok adapter hb ⟨"check_document_exists", some args⟩ args rfl
            (textResp "Missing required parameters: doctype and name" true) (by rw [hbody])
        exact ⟨by rw [he]; rfl, by rw [he]; decide,
          by rw [helperSnd adapter hb ⟨"check_document_exists", some args⟩ args rfl, hbody]⟩
      · have hbody : helperBody adapter hb ⟨"check_document_exists", some args⟩ args =
            (Except.ok (textResp "Missing required parameters: doctype and name" true), []) := by
          unfold helperBody
          simp +decide [htr]
        have he := helperFst_ok adapter hb ⟨"check_document_exists", some args⟩ args rfl
            (textResp "Missing required parameters: doctype and name" true) (by rw [hbody])
        exact ⟨by rw [he]; rfl, by rw [he]; decide,
          by rw [helperSnd adapter hb ⟨"check_document_exists", some args⟩ args rfl, hbody]⟩
    by_cases hc4 : nm = "get_document_count"
    · subst hc4
      simp [helperRequiredArgs] at hmem
      subst hmem
      have hbody : helperBody adapter hb ⟨"get_document_count", some args⟩ args =
          (Except.ok (textResp "Missing required parameter: doctype" true), []) := by
        unfold helperBody
        simp +decide [htr]
      have he := helperFst_ok adapter hb ⟨"get_document_count", some args⟩ args rfl
          (textResp "Missing required parameter: doctype" true) (by rw [hbody])
      exact ⟨by rw [he]; rfl, by rw [he]; decide,
        by rw [helperSnd adapter hb ⟨"get_document_count", some args⟩ args rfl, hbody]⟩
    by_cases hc5 : nm = "get_naming_info"
    · subst hc5
      simp [helperRequiredArgs] at hmem
      subst hmem
      have hbody : helperBody adapter hb ⟨"get_naming_info", some args⟩ args =
          (Except.ok (textResp "Missing required parameter: doctype" true), []) := by
        unfold helperBody
        simp +decide [htr]
      have he := helperFst_ok adapter hb ⟨"get_naming_info", some args⟩ args rfl
          (textResp "Missing required parameter: doctype" true) (by rw [hbody])
      exact ⟨by rw [he]; rfl, by rw [he]; decide,
        by rw [helperSnd adapter hb ⟨"get_naming_info", some args⟩ args rfl, hbody]⟩
    by_cases hc6 : nm = "get_required_fields"
    · subst hc6
      simp [helperRequiredArgs] at hmem
      subst hmem
      have hbody : helperBody adapter hb ⟨"get_required_fields", some args⟩ args =
          (Except.ok (textResp "Missing required parameter: doctype" true), []) := by
        unfold helperBody
        simp +decide [htr]
      have he := helperFst_ok adapter hb ⟨"get_required_fields", some args⟩ args rfl
          (textResp "Missing required parameter: doctype" true) (by rw [hbody])
      exact ⟨by rw [he]; rfl, by rw [he]; decide,
        by rw [helperSnd adapter hb ⟨"get_required_fields", some args⟩ args rfl, hbody]⟩
    by_cases hc7 : nm = "get_api_instructions"
    · subst hc7
      simp [helperRequiredArgs] at hmem
      rcases hmem with rfl | rfl
      · have hbody : helperBody adapter hb ⟨"get_api_instructions", some args⟩ args =
            (Except.ok (textResp "Missing required parameters: category and operation" true), []) := by
          unfold helperBody
          simp +decide [htr]
        have he := helperFst_ok adapter hb ⟨"get_api_instructions", some args⟩ args rfl
            (textResp "Missing required parameters: category and operation" true) (by rw [hbody])
        exact ⟨by rw [he]; rfl, by rw [he]; decide,
          by rw [helperSnd adapter hb ⟨"get_api_instructions", some args⟩ args rfl, hbody]⟩
      · have hbody : helperBody adapter hb ⟨"get_api_instructions", some args⟩ args =
            (Except.ok (textResp "Missing required parameters: category and operation" true), []) := by
          unfold helperBody
          simp +decide [htr]
        have he := helperFst_ok adapter hb ⟨"get_api_instructions", some args⟩ args rfl
            (textResp "Missing required parameters: category and operation" true) (by rw [hbody])
        exact ⟨by rw [he]; rfl, by rw [he]; decide,
          by rw [helperSnd adapter hb ⟨"get_api_instructions", some args⟩ args rfl, hbody]⟩
    by_cases hc8 : nm = "send_whatsapp_message"
    · subst hc8
      simp [helperRequiredArgs] at hmem
      rcases hmem with rfl | rfl
      · have hbody : helperBody adapter hb ⟨"send_whatsapp_message", some args⟩ args =
            (Except.ok (textResp "Missing required parameters: to and message" true), []) := by
          unfold helperBody
          simp +decide [htr]
        have he := helperFst_ok adapter hb ⟨"send_whatsapp_message", some args⟩ args rfl
            (textResp "Missing required parameters: to and message" true) (by rw [hbody])
        exact ⟨by rw [he]; rfl, by rw [he]; decide,
          by rw [helperSnd adapter hb ⟨"send_whatsapp_message", some args⟩ args rfl, hbody]⟩
      · have hbody : helperBody adapter hb ⟨"send_whatsapp_message", some args⟩ args =
            (Except.ok (textResp "Missing required parameters: to and message" true), []) := by
          unfold helperBody
          simp +decide [htr]
        have he := helperFst_ok adapter hb ⟨"send_whatsapp_message", some args⟩ args rfl
            (textResp "Missing required parameters: to and message" true) (by rw [hbody])
        exact ⟨by rw [he]; rfl, by rw [he]; decide,
          by rw [helperSnd adapter hb ⟨"send_whatsapp_message", some args⟩ args rfl, hbody]⟩
    by_cases hc9 : nm = "send_instagram_message"
    · subst hc9
      simp [helperRequiredArgs] at hmem
      rcases hmem with rfl | rfl
      · have hbody : helperBody adapter hb ⟨"send_instagram_message", some args⟩ args =
            (Except.ok (textResp "Missing required parameters: to and message" true), []) := by
          unfold helperBody
          simp +decide [htr]
        have he := helperFst_ok adapter hb ⟨"send_instagram_message", some args⟩ args rfl
            (textResp "Missing required parameters: to and message" true) (by rw [hbody])
        exact ⟨by rw [he]; rfl, by rw [he]; decide,
          by rw [helperSnd adapter hb ⟨"send_instagram_message", some args⟩ args rfl, hbody]⟩
      · have hbody : helperBody adapter hb ⟨"send_instagram_message", some args⟩ args =
            (Except.ok (textResp "Missing required parameters: to and message" true), []) := by
          unfold helperBody
          simp +decide [htr]
        have he := helperFst_ok adapter hb ⟨"send_instagram_message", some args⟩ args rfl
            (textResp "Missing required parameters: to and message" true) (by rw [hbody])
        exact ⟨by rw [he]; rfl, by rw [he]; decide,
          by rw [helperSnd adapter hb ⟨"send_instagram_message", some args⟩ args rfl, hbody]⟩
    simp [helperRequiredArgs, hc1, hc2, hc3, hc4, hc5, hc6, hc7, hc8, hc9] at hmem

/-- C3 witness: concrete missing-argument calls in each guarded group. -/
theorem c3_missing_required_witness :
    ((handleDoctypeOperationsToolCall (okAdapter Json.null)
        ⟨"delete_doctype", some []⟩).1.isError = true ∧
      strContainsSub (headText (handleDoctypeOperationsToolCall (okAdapter Json.null)
        ⟨"delete_doctype", some []⟩).1) "doctype_name" = true ∧
      (handleDoctypeOperationsToolCall (okAdapter Json.null)
        ⟨"delete_doctype", some []⟩).2 = []) ∧
    ((handleWorkflowToolCall (okAdapter Json.null)
        ⟨"read_blueprint", some []⟩).1.isError = true ∧
      strContainsSub (headText (handleWorkflowToolCall (okAdapter Json.null)
        ⟨"read_blueprint", some []⟩).1) "blueprint_id" = true ∧
      (handleWorkflowToolCall (okAdapter Json.null)
        ⟨"read_blueprint", some []⟩).2 = []) ∧
    ((handleHelperToolCall (okAdapter Json.null) failingHelpers
        ⟨"check_doctype_exists", some []⟩).1.isError = true ∧
      strContainsSub (headText (handleHelperToolCall (okAdapter Json.null)
        failingHelpers ⟨"check_doctype_exists", some []⟩).1) "doctype" = true ∧
      (handleHelperToolCall (okAdapter Json.null) failingHelpers
        ⟨"check_doctype_exists", some []⟩).2 = []) :=
  ⟨(c3_missing_required (okAdapter Json.null) failingHelpers
      "delete_doctype" "doctype_name" []).1 (by decide) (by decide),
   (c3_missing_required (okAdapter Json.null) failingHelpers
      "read_blueprint" "blueprint_id" []).2.1 (by decide) (by decide),
   (c3_missing_required (okAdapter Json.null) failingHelpers
      "check_doctype_exists" "doctype" []).2.2 (by decide) (by decide)⟩

/-- A valid doctype hint for DocType `A`. -/
def hintA : Json :=
  Json.obj [("type", Json.str "doctype"), ("target", Json.str "A"),
            ("hint", Json.str "first hint")]

/-- A valid doctype hint for DocType `B`. -/
def hintB : Json :=
  Json.obj [("type", Json.str "doctype"), ("target", Json.str "B"),
            ("hint", Json.str "second hint")]

/-- C7 counterexample: loading two files, the globally visible structure
passes through a state that already holds file 1's hint but not yet
file 2's, although the finished load holds both — a lookup during the load
observes a partially-populated aggregate, so the new tables are not built
fully before becoming visible. -/
theorem c7_counterexample :
    ∃ g ∈ loadStaticHintsTrace emptyHints
        [some (Json.arr [hintA]), some (Json.arr [hintB])],
      getDocTypeHints g "A" ≠ [] ∧ getDocTypeHints g "B" = [] ∧
      getDocTypeHints (loadStaticHints
        (.ok [some (Json.arr [hintA]), some (Json.arr [hintB])])) "B" ≠ [] := by
  decide

theorem loadStaticHintsStates_get (files : List (Option Json)) (g : StaticHints)
    (i : Nat) (hi : i ≤ files.length) :
    (loadStaticHintsStates g files).get? i =
      some (List.foldl processFile g (files.take i)) := by
  induction files generalizing g i with
  | nil =>
      have : i = 0 := Nat.le_zero.mp hi
      subst this
      rfl
  | cons f fs ih =>
      cases i with
      | zero => rfl
      | succ j =>
          simpa [loadStaticHintsStates] using
            ih (processFile g f) j (Nat.le_of_succ_le_succ hi)

/-- C7 amended: the load is not an atomic swap — after the reset, the
`(i+1)`-st state the global `staticHints` takes during the load is exactly
the fold of the first `i` files over the empty maps, so every partial
aggregate is the visible value while later files are still loading. -/
theorem c7_trace (g₀ : StaticHints) (files : List (Option Json)) (i : Nat)
    (hi : i ≤ files.length) :
    (loadStaticHintsTrace g₀ files).get? (i + 1) =
      some (List.foldl processFile emptyHints (files.take i)) := by
  simpa [loadStaticHintsTrace] using loadStaticHintsStates_get files emptyHints i hi

/-- C7 witness: the state after the first of two files. -/
theorem c7_trace_witness :
    (loadStaticHintsTrace emptyHints
        [some (Json.arr [hintA]), some (Json.arr [hintB])]).get? 2 =
      some (List.foldl processFile emptyHints
        ([some (Json.arr [hintA]), some (Json.arr [hintB])].take 1)) :=
  c7_trace emptyHints [some (Json.arr [hintA]), some (Json.arr [hintB])] 1
    (by decide)

/-- C8 counterexample: a directory with a single well-formed JSON file
`[null, hintA]` — the `null` record raises inside the per-file loop, the
per-file catch abandons the remainder of that file, and the perfectly
valid record `hintA` is never loaded (second conjunct: alone it would
be). -/
theorem c8_counterexample :
    getDocTypeHints (loadStaticHints
      (.ok [some (Json.arr [Json.null, hintA])])) "A" = [] ∧
    getDocTypeHints (loadStaticHints (.ok [some (Json.arr [hintA])])) "A"
      = [hintA] := by
  decide

theorem foldl_processFile_filter (files : List (Option Json)) (g : StaticHints) :
    List.foldl processFile g files =
      List.foldl processFile g (files.filter Option.isSome) := by
  induction files generalizing g with
  | nil => rfl
  | cons f fs ih =>
      cases f with
      | none => simpa [processFile] using ih g
      | some v => simpa using ih (processFile g (some v))

/-- C8 amended: `loadStaticHints` never raises and skips exactly the
malformed (unparseable) files — the result is the fold over the
well-formed files only — and a directory with one malformed and one valid
file yields precisely the valid file's hints; but within a well-formed
file a raising record silently discards the rest of that file (see the
counterexample), so not all valid records of well-formed files load. -/
theorem c8_malformed_files (files : List (Option Json)) :
    loadStaticHints (.ok files) =
      List.foldl processFile emptyHints (files.filter Option.isSome) ∧
    getDocTypeHints (loadStaticHints
      (.ok [none, some (Json.arr [hintA])])) "A" = [hintA] ∧
    loadStaticHints (.ok [none, some (Json.arr [hintA])]) =
      loadStaticHints (.ok [some (Json.arr [hintA])]) :=
  ⟨foldl_processFile_filter files emptyHints, by decide, by decide⟩

/-- A plain data field: neither Link nor Select. -/
def dataField : Json :=
  Json.obj [("fieldname", Json.str "status"), ("fieldtype", Json.str "Data")]

/-- A Select field with no options string. -/
def selectField : Json :=
  Json.obj [("fieldname", Json.str "kind"), ("fieldtype", Json.str "Select")]

/-- A DocType document carrying the two sample fields. -/
def taskDoc : Json :=
  Json.obj [("name", Json.str "Task"),
            ("fields", Json.arr [dataField, selectField])]

/-- The schema `getDocTypeSchema` reshapes `taskDoc` into. -/
def taskSchema : Json :=
  Json.obj [("name", Json.str "Task"), ("label", Json.str "Task"),
            ("issingle", Json.bool false), ("istable", Json.bool false),
            ("custom", Json.bool false),
            ("fields", Json.arr [dataField, selectField]),
            ("permissions", Json.arr [])]

/-- C10: when the requested field exists and its fieldtype is neither
`"Link"` nor `"Select"` (`"Table"` included), `getFieldOptions` returns
the empty list and issues no `getDocList` call; likewise for a `"Select"`
field whose options string is empty or absent. -/
theorem c10_field_options_empty
    (getDoc : String → String → Except JsError Json)
    (gdl : DocListCall → Except JsError Json)
    (apiErr : JsError → String → Except JsError Json)
    (doctype fieldname : String) (filters : Option Json)
    (hd : doctype ≠ "") (hf : fieldname ≠ "")
    (schema : Json) (hs : getDocTypeSchema getDoc apiErr doctype = .ok schema)
    (hts : truthy schema = true)
    (fieldsL : List Json)
    (hfl : getPropT schema "fields" = some (Json.arr fieldsL))
    (field : Json) (hff : findField fieldname fieldsL = .ok (some field))
    (ftv : Option Json) (hft : getPropD field "fieldtype" = .ok ftv) :
    ((ftv == some (Json.str "Link")) = false →
      (ftv == some (Json.str "Select")) = false →
      getFieldOptions getDoc gdl apiErr doctype fieldname filters =
        (.ok (Json.arr []), [])) ∧
    ((ftv == some (Json.str "Select")) = true →
      ∀ ov, getPropD field "options" = .ok ov → truthyOpt ov = false →
      getFieldOptions getDoc gdl apiErr doctype fieldname filters =
        (.ok (Json.arr []), [])) := by
  have h1 : truthyOpt (some (Json.arr fieldsL)) = true := rfl
  have h2 : isArrayOpt (some (Json.arr fieldsL)) = true := rfl
  constructor
  · intro hL hS
    cases hT : ftv == some (Json.str "Table")
    all_goals unfold getFieldOptions
    all_goals simp +decide [hd, hf, hs, hts, hfl, hff, hft, hL, hS, hT, h1, h2]
  · intro hSel ov hov hto
    have hfe : ftv = some (Json.str "Select") := eq_of_beq hSel
    subst hfe
    unfold getFieldOptions
    simp +decide [hd, hf, hs, hts, hfl, hff, hft, hov, hto, h1, h2]

/-- C10 witness: a Data field and an option-less Select field of a
concrete DocType. -/
theorem c10_field_options_empty_witness :
    getFieldOptions (fun _ _ => .ok taskDoc) (fun _ => .error ⟨"unused", ""⟩)
        (fun e _ => .error e) "Task" "status" none = (.ok (Json.arr []), []) ∧
    getFieldOptions (fun _ _ => .ok taskDoc) (fun _ => .error ⟨"unused", ""⟩)
        (fun e _ => .error e) "Task" "kind" none = (.ok (Json.arr []), []) :=
  ⟨(c10_field_options_empty _ _ _ "Task" "status" none (by decide) (by decide)
      taskSchema (by rfl) (by rfl) [dataField, selectField] (by rfl)
      dataField (by rfl) (some (Json.str "Data")) (by rfl)).1
      (by rfl) (by rfl),
   (c10_field_options_empty _ _ _ "Task" "kind" none (by decide) (by decide)
      taskSchema (by rfl) (by rfl) [dataField, selectField] (by rfl)
      selectField (by rfl) (some (Json.str "Select")) (by rfl)).2
      (by rfl) none (by rfl) (by rfl)⟩
